import Mathlib

/-!
# arm-alarm: SSP1 slave driver and pressure conversions

A shallow embedding of `src/core/ssp1_slave/ssp1_slave.c` and of
`src/drivers/sensors/pressure/pressure.c`.

## Modelling conventions

* The driver's three `static` globals, the memory-mapped configuration
  registers, the byte-addressed memory and the peripheral environment form
  one record, `Machine`.  Every C function becomes a function on `Machine`.
* Pointers and `uint32_t` values are natural numbers; `NULL` is `0`, and a
  pointer increment is taken modulo `2 ^ 32`.
* The volatile registers are driven by the hardware.  A read of `SR`
  returns the next element of the stream `ssp1_sr`, a read of a data
  register dequeues the next frame of the stream `ssp1_rx` (or `ssp0_rx`
  for `LPC_SSP0`), and the value of `MIS` seen by the interrupt handler is
  an argument of the handler.
* Accesses to the data registers, writes of the interrupt-clear register
  and calls through the completion callback are appended to `trace`.
* The header `ssp1_slave.h` and `projectconfig.h` are not part of the
  source tree, so the constants they define are fields of `Config`.
* A callback is a function pointer; what the pointed-to code does is given
  by a table `code` from function pointers to machine transformers.
* A busy-wait loop polls at most `fuel` times and yields `none` when the
  peripheral never became ready.
* The pressure functions are embedded over the real numbers.
-/

namespace ArmAlarm

/-! ## Data model -/

/-- Observable accesses made by the driver. -/
inductive Event where
  /-- a write of `LPC_SSP1->DR` -/
  | dr1Write (v : Nat)
  /-- a read of `LPC_SSP1->DR` returning `v` -/
  | dr1Read (v : Nat)
  /-- a read of `LPC_SSP0->DR` returning `v` -/
  | dr0Read (v : Nat)
  /-- a write of `LPC_SSP1->ICR` -/
  | icrWrite (v : Nat)
  /-- a call through the function pointer `f` -/
  | call (f : Nat)
  deriving DecidableEq, Repr

/-- Memory-mapped registers that hold what was last written to them. -/
inductive Reg where
  | PRESETCTRL | SYSAHBCLKCTRL | SSP1CLKDIV
  | PIO0_21 | PIO1_22 | PIO0_22 | PIO1_21 | PIO1_20 | PIO1_15
  | CR0 | CR1 | CPSR | IMSC
  deriving DecidableEq, Repr

/-- Selection made by `CFG_SSP_MOSI1_LOCATION`. -/
inductive MosiLocation where
  | p0_21 | p1_22 | unselected
  deriving DecidableEq, Repr

/-- Selection made by `CFG_SSP_MISO1_LOCATION`. -/
inductive MisoLocation where
  | p0_22 | p1_21 | unselected
  deriving DecidableEq, Repr

/-- Selection made by `CFG_SSP_SCK1_LOCATION`; any other value stops the
build with `#error`. -/
inductive SckLocation where
  | p1_20 | p1_15
  deriving DecidableEq, Repr

/-- Constants of `ssp1_slave.h` and `projectconfig.h`, which are not in the
source tree. -/
structure Config where
  SSP1_RX_INTERRUPT_MASK : Nat
  SSP1_RX_INTERRUPT_CLEAR_MASK : Nat
  SSP1_SR_TNF_NOTFULL : Nat
  SSP1_SR_BSY_BUSY : Nat
  SSP1_SR_RNE_NOTEMPTY : Nat
  SSP1_FIFOSIZE : Nat
  SSP1_SCR_5 : Nat
  SCB_CLKDIV_DIV1 : Nat
  SSP1_CR1_SSE_ENABLED : Nat
  SSP1_CR1_MS_SLAVE : Nat
  SSP1_CR1_LBM_NORMAL : Nat
  CFG_SSP_CPOL1 : Nat
  CFG_SSP_CPHA1 : Nat
  mosi : MosiLocation
  miso : MisoLocation
  sck : SckLocation

/-- The machine state seen by the driver. -/
structure Machine where
  /-- Global `static uint8_t* ssp1_recv_buff`. -/
  ssp1_recv_buff : Nat
  /-- Global `static uint32_t ssp1_recv_remainlen`. -/
  ssp1_recv_remainlen : Nat
  /-- Global `static SSP_CALLBACK ssp1_recv_callback`. -/
  ssp1_recv_callback : Nat
  /-- configuration registers -/
  regs : Reg → Nat
  /-- whether `SSP1_IRQn` is enabled at the interrupt controller -/
  nvicEnabled : Bool
  /-- byte-addressed memory -/
  mem : Nat → Nat
  /-- values returned by successive reads of `LPC_SSP1->SR` -/
  ssp1_sr : Nat → Nat
  /-- number of reads of `LPC_SSP1->SR` made so far -/
  ssp1_srPos : Nat
  /-- frames delivered by successive reads of `LPC_SSP1->DR` -/
  ssp1_rx : Nat → Nat
  /-- number of frames dequeued from `LPC_SSP1->DR` so far -/
  ssp1_rxPos : Nat
  /-- frames delivered by successive reads of `LPC_SSP0->DR` -/
  ssp0_rx : Nat → Nat
  /-- number of frames dequeued from `LPC_SSP0->DR` so far -/
  ssp0_rxPos : Nat
  /-- accesses made so far, oldest first -/
  trace : List Event

/-- Behaviour of the code behind each function pointer. -/
abbrev CallbackTable := Nat → Machine → Machine

/-! ## Primitive accesses -/

/-- Bitwise complement of a 32-bit value. -/
def not32 (x : Nat) : Nat := 0xFFFFFFFF ^^^ x

/-- Pointer increment: `p++` on a 32-bit target. -/
def ptrInc (p : Nat) : Nat := (p + 1) % 2 ^ 32

/-- Load through a `uint8_t*`. -/
def loadByte (m : Machine) (p : Nat) : Nat := m.mem p % 256

/-- Store through a `uint8_t*`: the value is truncated to eight bits. -/
def storeByte (p v : Nat) (m : Machine) : Machine :=
  { m with mem := fun a => if a = p then v % 256 else m.mem a }

/-- Write of a configuration register. -/
def setReg (r : Reg) (v : Nat) (m : Machine) : Machine :=
  { m with regs := fun q => if q = r then v else m.regs q }

/-- Read of `LPC_SSP1->SR`: the value and the machine afterwards. -/
def readSR (m : Machine) : Nat × Machine :=
  (m.ssp1_sr m.ssp1_srPos, { m with ssp1_srPos := m.ssp1_srPos + 1 })

/-- Read of `LPC_SSP1->DR`: dequeues one frame. -/
def readDR1 (m : Machine) : Nat × Machine :=
  (m.ssp1_rx m.ssp1_rxPos,
   { m with ssp1_rxPos := m.ssp1_rxPos + 1,
            trace := m.trace ++ [Event.dr1Read (m.ssp1_rx m.ssp1_rxPos)] })

/-- Read of `LPC_SSP0->DR`: dequeues one frame of the other peripheral. -/
def readDR0 (m : Machine) : Nat × Machine :=
  (m.ssp0_rx m.ssp0_rxPos,
   { m with ssp0_rxPos := m.ssp0_rxPos + 1,
            trace := m.trace ++ [Event.dr0Read (m.ssp0_rx m.ssp0_rxPos)] })

/-- Write of `LPC_SSP1->DR`: enqueues one frame for transmission. -/
def writeDR1 (v : Nat) (m : Machine) : Machine :=
  { m with trace := m.trace ++ [Event.dr1Write v] }

/-- Write of `LPC_SSP1->ICR`. -/
def writeICR (v : Nat) (m : Machine) : Machine :=
  { m with trace := m.trace ++ [Event.icrWrite v] }

/-- Call through a function pointer. -/
def callPtr (code : CallbackTable) (f : Nat) (m : Machine) : Machine :=
  code f { m with trace := m.trace ++ [Event.call f] }

/-! ## `SSP1_IRQHandler` -/

/-- The interrupt handler; `mis` is the value read from `LPC_SSP1->MIS`. -/
def SSP1_IRQHandler (cfg : Config) (code : CallbackTable) (mis : Nat)
    (m : Machine) : Machine :=
  let status_register := mis
  let m1 :=
    if status_register &&& cfg.SSP1_RX_INTERRUPT_MASK ≠ 0 then
      if m.ssp1_recv_buff ≠ 0 then
        if m.ssp1_recv_remainlen > 0 then
          let r := readDR0 m
          let m := storeByte m.ssp1_recv_buff r.1 r.2
          let m := { m with ssp1_recv_buff := ptrInc m.ssp1_recv_buff }
          { m with ssp1_recv_remainlen := m.ssp1_recv_remainlen - 1 }
        else
          let m := setReg Reg.IMSC
            (m.regs Reg.IMSC &&& not32 cfg.SSP1_RX_INTERRUPT_MASK) m
          let m := callPtr code m.ssp1_recv_callback m
          let m := { m with ssp1_recv_buff := 0 }
          { m with ssp1_recv_remainlen := 0 }
      else
        (readDR1 m).2
    else m
  if status_register &&& cfg.SSP1_RX_INTERRUPT_CLEAR_MASK ≠ 0 then
    writeICR status_register m1
  else m1

/-! ## `ssp1_slaveSetupClock` and `ssp1_slaveInit` -/

/-- Sets the SSP clock. -/
def ssp1_slaveSetupClock (cfg : Config) (m : Machine) : Machine :=
  let m := setReg Reg.SSP1CLKDIV cfg.SCB_CLKDIV_DIV1 m
  let m := setReg Reg.CR0
    ((7 <<< 0) ||| (0 <<< 4)
      ||| (if cfg.CFG_SSP_CPOL1 = 1 then 1 <<< 6 else 0 <<< 6)
      ||| (if cfg.CFG_SSP_CPHA1 = 1 then 1 <<< 7 else 0 <<< 7)
      ||| cfg.SSP1_SCR_5) m
  setReg Reg.CPSR 2 m

/-- The loop `for (i = 0; i < n; i++) Dummy = LPC_SSP1->DR;`. -/
def flushRx : Nat → Machine → Machine
  | 0, m => m
  | n + 1, m => flushRx n (readDR1 m).2

/-- `r &= ~0x07; r |= v;` on a pin-function register. -/
def routePin (r : Reg) (v : Nat) (m : Machine) : Machine :=
  let m := setReg r (m.regs r &&& not32 0x07) m
  setReg r (m.regs r ||| v) m

/-- Initialisation of the peripheral.  The flush loop counts with a
`uint8_t`, so it ends only when `SSP1_FIFOSIZE` fits in eight bits; `none`
stands for the loop that never ends. -/
def ssp1_slaveInit (cfg : Config) (m : Machine) : Option Machine :=
  let m := setReg Reg.PRESETCTRL (m.regs Reg.PRESETCTRL ||| (0x1 <<< 2)) m
  let m := setReg Reg.SYSAHBCLKCTRL (m.regs Reg.SYSAHBCLKCTRL ||| (1 <<< 18)) m
  let m := match cfg.mosi with
    | MosiLocation.p0_21 => routePin Reg.PIO0_21 0x02 m
    | MosiLocation.p1_22 => routePin Reg.PIO1_22 0x02 m
    | MosiLocation.unselected => m
  let m := match cfg.miso with
    | MisoLocation.p0_22 => routePin Reg.PIO0_22 0x03 m
    | MisoLocation.p1_21 => routePin Reg.PIO1_21 0x02 m
    | MisoLocation.unselected => m
  let m := match cfg.sck with
    | SckLocation.p1_20 => routePin Reg.PIO1_20 0x02 m
    | SckLocation.p1_15 => routePin Reg.PIO1_15 0x03 m
  let m := ssp1_slaveSetupClock cfg m
  if cfg.SSP1_FIFOSIZE < 256 then
    let m := flushRx cfg.SSP1_FIFOSIZE m
    let m := setReg Reg.CR1
      (cfg.SSP1_CR1_SSE_ENABLED ||| cfg.SSP1_CR1_MS_SLAVE
        ||| cfg.SSP1_CR1_LBM_NORMAL) m
    let m := { m with ssp1_recv_buff := 0 }
    let m := { m with ssp1_recv_remainlen := 0 }
    some { m with nvicEnabled := true }
  else none

/-! ## `ssp1_slaveTransfer` and `ssp1_slave_send` -/

/-- Loop condition of the first busy-wait, negated: transmit FIFO not full
and peripheral not busy. -/
def txReady (cfg : Config) (sr : Nat) : Bool :=
  sr &&& (cfg.SSP1_SR_TNF_NOTFULL ||| cfg.SSP1_SR_BSY_BUSY)
    = cfg.SSP1_SR_TNF_NOTFULL

/-- Loop condition of the second busy-wait, negated: receive FIFO not
empty. -/
def rxReady (cfg : Config) (sr : Nat) : Bool :=
  sr &&& cfg.SSP1_SR_RNE_NOTEMPTY = cfg.SSP1_SR_RNE_NOTEMPTY

/-- The loop `while (!ready(LPC_SSP1->SR));`, polling at most `fuel`
times. -/
def busyWait (ready : Nat → Bool) : Nat → Machine → Option Machine
  | 0, _ => none
  | fuel + 1, m =>
    let r := readSR m
    if ready r.1 then some r.2 else busyWait ready fuel r.2

/-- One pass through the body of the `for` loop of `ssp1_slaveTransfer`:
the machine afterwards and the advanced `recvbuf` and `sendbuf`. -/
def transferSlot (cfg : Config) (fuel : Nat) (recvbuf sendbuf : Nat)
    (m : Machine) : Option (Machine × Nat × Nat) :=
  match busyWait (txReady cfg) fuel m with
  | none => none
  | some m1 =>
    let (m2, sendbuf2) :=
      if sendbuf ≠ 0 then (writeDR1 (loadByte m1 sendbuf) m1, ptrInc sendbuf)
      else (writeDR1 0xFF m1, sendbuf)
    match busyWait (rxReady cfg) fuel m2 with
    | none => none
    | some m3 =>
      if recvbuf ≠ 0 then
        let r := readDR1 m3
        some (storeByte recvbuf r.1 r.2, ptrInc recvbuf, sendbuf2)
      else
        some ((readDR1 m3).2, recvbuf, sendbuf2)

/-- The `for` loop of `ssp1_slaveTransfer` with `n` slots left. -/
def transferLoop (cfg : Config) (fuel : Nat) :
    Nat → Nat → Nat → Machine → Option Machine
  | 0, _, _, m => some m
  | n + 1, recvbuf, sendbuf, m =>
    match transferSlot cfg fuel recvbuf sendbuf m with
    | none => none
    | some (m', recvbuf', sendbuf') => transferLoop cfg fuel n recvbuf' sendbuf' m'

/-- Blocking full-duplex exchange of `length` bytes. -/
def ssp1_slaveTransfer (cfg : Config) (fuel : Nat) (recvbuf sendbuf length : Nat)
    (m : Machine) : Option Machine :=
  transferLoop cfg fuel length recvbuf sendbuf m

/-- Send-only wrapper. -/
def ssp1_slave_send (cfg : Config) (fuel : Nat) (buf length : Nat)
    (m : Machine) : Option Machine :=
  ssp1_slaveTransfer cfg fuel 0 buf length m

/-! ## `ssp1_slaveInterruptRecv` -/

/-- Arms an interrupt-driven receive. -/
def ssp1_slaveInterruptRecv (cfg : Config) (buf len callback : Nat)
    (m : Machine) : Machine :=
  let m := { m with ssp1_recv_buff := buf }
  let m := { m with ssp1_recv_remainlen := len }
  let m := { m with ssp1_recv_callback := callback }
  setReg Reg.IMSC (m.regs Reg.IMSC ||| cfg.SSP1_RX_INTERRUPT_MASK) m

/-! ## Specification vocabulary -/

/-- The data-register accesses of `n` slots of an exchange in which slot
`i` writes `tx i` and then reads `rx i`. -/
def exchangeTrace (tx rx : Nat → Nat) (n : Nat) : List Event :=
  (List.range n).flatMap fun i => [Event.dr1Write (tx i), Event.dr1Read (rx i)]

/-- A busy-wait that starts with poll number `p` of the status register is
answered and ends before poll number `q`: the first status word for which
`ready` holds is the `d`-th after `p`, with `d` below the polling bound
`fuel`, and the `d` words before it are all not ready. -/
def AnsweredAt (ready : Nat → Bool) (sr : Nat → Nat) (fuel p q : Nat) : Prop :=
  ∃ d, d < fuel ∧ q = p + d + 1 ∧ ready (sr (p + d)) = true ∧
    ∀ j, j < d → ready (sr (p + j)) = false

/-- The peripheral reports ready at every busy-wait of an `n`-slot transfer
that starts with poll number `p`: in each slot the wait before the write is
answered by "transmit FIFO not full and not busy" and the wait before the
read by "receive FIFO not empty", each after any number of not-ready polls
below the polling bound. -/
def WaitsAnswered (cfg : Config) (fuel : Nat) (sr : Nat → Nat) : Nat → Nat → Prop
  | 0, _ => True
  | n + 1, p => ∃ q r, AnsweredAt (txReady cfg) sr fuel p q ∧
      AnsweredAt (rxReady cfg) sr fuel q r ∧ WaitsAnswered cfg fuel sr n r

/-- The special case in which no busy-wait has to wait: the status word
polled before each write and the one polled before each read of an `n`-slot
transfer started in `m` are ready at once. -/
def ReadyAtEachWait (cfg : Config) (m : Machine) (n : Nat) : Prop :=
  ∀ k, k < n →
    txReady cfg (m.ssp1_sr (m.ssp1_srPos + 2 * k)) = true ∧
    rxReady cfg (m.ssp1_sr (m.ssp1_srPos + 2 * k + 1)) = true

/-- The handler run once for each value of `MIS` in the list, in order. -/
def fireAll (cfg : Config) (code : CallbackTable) : List Nat → Machine → Machine
  | [], m => m
  | mis :: rest, m => fireAll cfg code rest (SSP1_IRQHandler cfg code mis m)

/-- The receive interrupt is pending in the status word `mis`. -/
@[reducible]
def RxPending (cfg : Config) (mis : Nat) : Prop :=
  mis &&& cfg.SSP1_RX_INTERRUPT_MASK ≠ 0

/-- The function pointers called according to a trace, oldest first. -/
def calledPointers (t : List Event) : List Nat :=
  t.filterMap fun e => match e with
    | Event.call f => some f
    | _ => none

/-- The values written to `LPC_SSP1->ICR` according to a trace, oldest
first. -/
def icrWrites (t : List Event) : List Nat :=
  t.filterMap fun e => match e with
    | Event.icrWrite v => some v
    | _ => none

/-- Operations on the interrupt-driven receive path after initialisation. -/
inductive Op where
  /-- a call `ssp1_slaveInterruptRecv(buf, len, callback)` -/
  | recv (buf len callback : Nat)
  /-- a firing of `SSP1_IRQHandler` that reads `mis` from `MIS` -/
  | irq (mis : Nat)
  deriving DecidableEq, Repr

/-- The request armed most recently: start and length of its buffer. -/
structure Request where
  base : Nat
  length : Nat
  deriving DecidableEq, Repr

/-- One operation.  A receive is accepted only while the driver is idle
(`ssp1_recv_buff` is `NULL`) and for a non-null buffer whose `len` bytes end
below the top of the 32-bit address space; any other call yields `none`. -/
def stepOp (cfg : Config) (code : CallbackTable) (s : Machine × Request) :
    Op → Option (Machine × Request)
  | Op.recv buf len callback =>
    if s.1.ssp1_recv_buff = 0 ∧ buf ≠ 0 ∧ buf + len < 2 ^ 32 then
      some (ssp1_slaveInterruptRecv cfg buf len callback s.1, ⟨buf, len⟩)
    else none
  | Op.irq mis => some (SSP1_IRQHandler cfg code mis s.1, s.2)

/-- A sequence of operations, in order. -/
def runOps (cfg : Config) (code : CallbackTable) :
    List Op → Machine × Request → Option (Machine × Request)
  | [], s => some s
  | op :: rest, s =>
    match stepOp cfg code s op with
    | none => none
    | some s' => runOps cfg code rest s'

/-- The states reached from `ssp1_slaveInit` by a sequence of operations. -/
def reachedFromInit (cfg : Config) (code : CallbackTable) (ops : List Op)
    (m0 : Machine) : Option (Machine × Request) :=
  match ssp1_slaveInit cfg m0 with
  | none => none
  | some m => runOps cfg code ops (m, ⟨0, 0⟩)

/-- The relation between the shared receive state and the request armed
most recently that every operation preserves. -/
def ReceiveInv (s : Machine × Request) : Prop :=
  (s.1.ssp1_recv_buff = 0 ∧ s.1.ssp1_recv_remainlen = 0) ∨
  (s.1.ssp1_recv_buff ≠ 0 ∧ s.1.ssp1_recv_remainlen ≤ s.2.length ∧
    s.1.ssp1_recv_buff = s.2.base + (s.2.length - s.1.ssp1_recv_remainlen) ∧
    s.2.base + s.2.length < 2 ^ 32)

/-! ## Pressure conversions

The C functions compute in `float32_t`; here they are taken over the real
numbers, with each literal at its decimal value. -/

/-- Altitude in metres from sea-level pressure, atmospheric pressure and
temperature. -/
noncomputable def pressureToAltitude (seaLevel atmospheric temp : ℝ) : ℝ :=
  (((seaLevel / atmospheric) ^ (0.190223 : ℝ) - 1.0) * (temp + 273.15)) / 0.0065

/-- Sea-level pressure from altitude, atmospheric pressure and
temperature. -/
noncomputable def pressureSeaLevelFromAltitude (altitude atmospheric temp : ℝ) : ℝ :=
  atmospheric * (1.0 - (0.0065 * altitude) /
    (temp + 0.0065 * altitude + 273.15)) ^ (-5.257 : ℝ)

/-- Temperature at the destination altitude. -/
noncomputable def pressureTempAtDestination (currTemp currAltitude destAltitude : ℝ) : ℝ :=
  currTemp - 0.0065 * (destAltitude - currAltitude)

/-- Atmospheric pressure at the destination altitude. -/
noncomputable def pressureAtDestination (seaLevel destTemp destAltitude : ℝ) : ℝ :=
  seaLevel * (1.0 - (0.0065 * destAltitude) /
    (destTemp + 0.0065 * destAltitude + 273.15)) ^ (5.257 : ℝ)

/-! ## Sample configuration and machine -/

/-- Values for the header constants that follow the bit assignments of the
LPC1347 SSP block: `RXMIS` is bit 2, `RORIC` and `RTIC` are bits 0 and 1,
`TNF`, `RNE` and `BSY` are bits 1, 2 and 4 of `SR`, and the FIFO holds eight
frames.  They serve only where an example needs a concrete configuration;
the general theorems hold for every `Config`. -/
def lpc1347 : Config where
  SSP1_RX_INTERRUPT_MASK := 0x4
  SSP1_RX_INTERRUPT_CLEAR_MASK := 0x3
  SSP1_SR_TNF_NOTFULL := 0x2
  SSP1_SR_BSY_BUSY := 0x10
  SSP1_SR_RNE_NOTEMPTY := 0x4
  SSP1_FIFOSIZE := 8
  SSP1_SCR_5 := 0x500
  SCB_CLKDIV_DIV1 := 1
  SSP1_CR1_SSE_ENABLED := 0x2
  SSP1_CR1_MS_SLAVE := 0x4
  SSP1_CR1_LBM_NORMAL := 0
  CFG_SSP_CPOL1 := 0
  CFG_SSP_CPHA1 := 0
  mosi := MosiLocation.p0_21
  miso := MisoLocation.p0_22
  sck := SckLocation.p1_20

/-- A machine after reset: registers and memory zero, globals zero.  The
status register always reads "transmit FIFO not full, receive FIFO not
empty, not busy"; SSP1 delivers the frames `0x20, 0x21, ...` and SSP0 the
frames `0x10, 0x11, ...`. -/
def bootMachine : Machine where
  ssp1_recv_buff := 0
  ssp1_recv_remainlen := 0
  ssp1_recv_callback := 0
  regs := fun _ => 0
  nvicEnabled := false
  mem := fun _ => 0
  ssp1_sr := fun _ => 0x6
  ssp1_srPos := 0
  ssp1_rx := fun i => 0x20 + i
  ssp1_rxPos := 0
  ssp0_rx := fun i => 0x10 + i
  ssp0_rxPos := 0
  trace := []

/-- A machine whose peripheral makes every busy-wait wait: the status
register reads "busy" (`0x10`) twice before each "ready" (`0x6`).  Memory
holds `0xA0, 0xA1, ...` from `0x10000000` on; the rest is as in
`bootMachine`. -/
def busyMachine : Machine :=
  { bootMachine with
    ssp1_sr := fun i => if i % 3 = 2 then 0x6 else 0x10
    mem := fun a => (a + 0xA0) % 256 }

/-- A callback table in which every callback returns at once. -/
def idleCallbacks : CallbackTable := fun _ m => m

/-- A callback table in which the callback at pointer `7` re-arms a receive
of four bytes at `0x10000200` with completion callback `9`, and every other
callback returns at once. -/
def rearmCallbacks : CallbackTable := fun f m =>
  if f = 7 then ssp1_slaveInterruptRecv lpc1347 0x10000200 4 9 m else m

/-! ## Blocking transfer -/

theorem exchangeTrace_zero (tx rx : Nat → Nat) : exchangeTrace tx rx 0 = [] := by
  simp [exchangeTrace]

theorem exchangeTrace_succ (tx rx : Nat → Nat) (n : Nat) :
    exchangeTrace tx rx (n + 1) =
      Event.dr1Write (tx 0) :: Event.dr1Read (rx 0) ::
        exchangeTrace (fun i => tx (i + 1)) (fun i => rx (i + 1)) n := by
  simp [exchangeTrace, List.range_succ_eq_map, List.flatMap_cons, List.flatMap_map]

/-- A busy-wait that returns has read the status register up to the first
ready word and has changed nothing else. -/
theorem busyWait_spec (ready : Nat → Bool) :
    ∀ (fuel : Nat) (m m' : Machine), busyWait ready fuel m = some m' →
      ∃ q, m' = { m with ssp1_srPos := q } ∧
        AnsweredAt ready m.ssp1_sr fuel m.ssp1_srPos q := by
  intro fuel
  induction fuel with
  | zero => intro m m' h; simp [busyWait] at h
  | succ k ih =>
    intro m m' h
    unfold busyWait at h
    simp only [readSR] at h
    by_cases hr : ready (m.ssp1_sr m.ssp1_srPos) = true
    · rw [if_pos hr] at h
      simp only [Option.some.injEq] at h
      exact ⟨m.ssp1_srPos + 1, h.symm, 0, Nat.succ_pos k, rfl, hr,
        fun j hj => absurd hj (Nat.not_lt_zero j)⟩
    · rw [if_neg hr] at h
      obtain ⟨q, hm', d, hd, hq, hready, hfirst⟩ := ih _ m' h
      refine ⟨q, hm', d + 1, Nat.succ_lt_succ hd, ?_, ?_, ?_⟩
      · simp only at hq; omega
      · have e : m.ssp1_srPos + (d + 1) = m.ssp1_srPos + 1 + d := by omega
        rw [e]; exact hready
      · intro j hj
        cases j with
        | zero => simpa using hr
        | succ i =>
          have := hfirst i (by omega)
          have e : m.ssp1_srPos + (i + 1) = m.ssp1_srPos + 1 + i := by omega
          rw [e]; exact this

/-- A busy-wait that is answered within the polling bound returns. -/
theorem busyWait_answered (ready : Nat → Bool) :
    ∀ (fuel : Nat) (m : Machine) (q : Nat),
      AnsweredAt ready m.ssp1_sr fuel m.ssp1_srPos q →
      busyWait ready fuel m = some { m with ssp1_srPos := q } := by
  intro fuel
  induction fuel with
  | zero =>
    intro m q h
    obtain ⟨d, hd, _⟩ := h
    exact absurd hd (Nat.not_lt_zero d)
  | succ k ih =>
    intro m q h
    obtain ⟨d, hd, hq, hready, hfirst⟩ := h
    unfold busyWait
    simp only [readSR]
    cases d with
    | zero =>
      have hr : ready (m.ssp1_sr m.ssp1_srPos) = true := by simpa using hready
      rw [if_pos hr, hq]
    | succ e =>
      have hr : ¬ ready (m.ssp1_sr m.ssp1_srPos) = true := by
        have := hfirst 0 (Nat.succ_pos e)
        simp only [Nat.add_zero] at this
        rw [this]; decide
      rw [if_neg hr]
      have hans : AnsweredAt ready
          ({ m with ssp1_srPos := m.ssp1_srPos + 1 } : Machine).ssp1_sr k
          ({ m with ssp1_srPos := m.ssp1_srPos + 1 } : Machine).ssp1_srPos q := by
        refine ⟨e, by omega, ?_, ?_, ?_⟩
        · show q = m.ssp1_srPos + 1 + e + 1
          omega
        · show ready (m.ssp1_sr (m.ssp1_srPos + 1 + e)) = true
          have e1 : m.ssp1_srPos + 1 + e = m.ssp1_srPos + (e + 1) := by omega
          rw [e1]; exact hready
        · intro j hj
          show ready (m.ssp1_sr (m.ssp1_srPos + 1 + j)) = false
          have e1 : m.ssp1_srPos + 1 + j = m.ssp1_srPos + (j + 1) := by omega
          rw [e1]; exact hfirst (j + 1) (by omega)
      rw [ih _ q hans]

/-- One slot that returns: what it wrote, read and stored, and the two
busy-waits it went through. -/
theorem transferSlot_spec (cfg : Config) (fuel recvbuf sendbuf : Nat) (m m1 : Machine)
    (r' s' : Nat) (h : transferSlot cfg fuel recvbuf sendbuf m = some (m1, r', s')) :
    r' = (if recvbuf ≠ 0 then ptrInc recvbuf else recvbuf) ∧
    s' = (if sendbuf ≠ 0 then ptrInc sendbuf else sendbuf) ∧
    m1.trace = m.trace ++
      [Event.dr1Write (if sendbuf ≠ 0 then loadByte m sendbuf else 0xFF),
       Event.dr1Read (m.ssp1_rx m.ssp1_rxPos)] ∧
    m1.ssp1_rxPos = m.ssp1_rxPos + 1 ∧
    m1.ssp1_sr = m.ssp1_sr ∧
    m1.ssp1_rx = m.ssp1_rx ∧
    m1.mem = (if recvbuf ≠ 0 then
                fun a => if a = recvbuf then m.ssp1_rx m.ssp1_rxPos % 256 else m.mem a
              else m.mem) ∧
    ∃ q, AnsweredAt (txReady cfg) m.ssp1_sr fuel m.ssp1_srPos q ∧
      AnsweredAt (rxReady cfg) m.ssp1_sr fuel q m1.ssp1_srPos := by
  unfold transferSlot at h
  cases hb1 : busyWait (txReady cfg) fuel m with
  | none => rw [hb1] at h; simp at h
  | some ma =>
    rw [hb1] at h
    obtain ⟨q, hma, hans1⟩ := busyWait_spec _ fuel m ma hb1
    subst hma
    by_cases hs : sendbuf = 0 <;> by_cases hr : recvbuf = 0
    all_goals
      simp only [hs, hr, ne_eq, not_true_eq_false, not_false_eq_true, if_true, if_false] at h ⊢
      split at h
      · simp at h
      · rename_i mb hb2
        obtain ⟨r, hmb, hans2⟩ := busyWait_spec _ fuel _ mb hb2
        subst hmb
        simp only [Option.some.injEq, Prod.mk.injEq] at h
        obtain ⟨h1, h2, h3⟩ := h
        subst h1
        refine ⟨h2.symm, h3.symm, ?_, ?_, ?_, ?_, ?_, q, hans1, ?_⟩ <;>
          first
            | exact hans2
            | simp [writeDR1, readDR1, storeByte, loadByte]

/-- One slot whose two busy-waits are answered returns. -/
theorem transferSlot_answered (cfg : Config) (fuel recvbuf sendbuf : Nat) (m : Machine)
    (q r : Nat) (h1 : AnsweredAt (txReady cfg) m.ssp1_sr fuel m.ssp1_srPos q)
    (h2 : AnsweredAt (rxReady cfg) m.ssp1_sr fuel q r) :
    ∃ m1, transferSlot cfg fuel recvbuf sendbuf m
        = some (m1, (if recvbuf ≠ 0 then ptrInc recvbuf else recvbuf),
                    (if sendbuf ≠ 0 then ptrInc sendbuf else sendbuf)) ∧
      m1.ssp1_sr = m.ssp1_sr ∧ m1.ssp1_srPos = r := by
  unfold transferSlot
  rw [busyWait_answered _ fuel m q h1]
  by_cases hs : sendbuf = 0 <;> by_cases hr : recvbuf = 0
  all_goals
    simp only [hs, hr, ne_eq, not_true_eq_false, not_false_eq_true, if_true, if_false]
    rw [busyWait_answered _ fuel _ r (by simpa [writeDR1] using h2)]
    simp [writeDR1, readDR1, storeByte]

theorem ptrInc_of_lt (p : Nat) (h : p + 1 < 2 ^ 32) : ptrInc p = p + 1 := by
  unfold ptrInc; exact Nat.mod_eq_of_lt h

theorem ptrInc_wrap (p : Nat) (h : p + 1 = 2 ^ 32) : ptrInc p = 0 := by
  unfold ptrInc; rw [h]; exact Nat.mod_self _

/-- The transfer loop returns exactly when every one of its busy-waits is
answered within the polling bound. -/
theorem transferLoop_returns_iff (cfg : Config) (fuel : Nat) :
    ∀ (n recvbuf sendbuf : Nat) (m : Machine),
      (∃ m', transferLoop cfg fuel n recvbuf sendbuf m = some m') ↔
        WaitsAnswered cfg fuel m.ssp1_sr n m.ssp1_srPos := by
  intro n
  induction n with
  | zero =>
    intro recvbuf sendbuf m
    simp [transferLoop, WaitsAnswered]
  | succ n ih =>
    intro recvbuf sendbuf m
    constructor
    · rintro ⟨m', h⟩
      simp only [transferLoop] at h
      cases hslot : transferSlot cfg fuel recvbuf sendbuf m with
      | none => rw [hslot] at h; simp at h
      | some res =>
        obtain ⟨m1, r', s'⟩ := res
        rw [hslot] at h
        obtain ⟨_, _, _, _, hsr, _, _, q, ha1, ha2⟩ :=
          transferSlot_spec cfg fuel recvbuf sendbuf m m1 r' s' hslot
        have hrest := (ih r' s' m1).mp ⟨m', h⟩
        rw [hsr] at hrest
        exact ⟨q, m1.ssp1_srPos, ha1, ha2, hrest⟩
    · rintro ⟨q, r, ha1, ha2, hrest⟩
      obtain ⟨m1, hslot, hsr, hpos⟩ :=
        transferSlot_answered cfg fuel recvbuf sendbuf m q r ha1 ha2
      rw [← hsr, ← hpos] at hrest
      obtain ⟨m', hm'⟩ := (ih _ _ m1).mpr hrest
      exact ⟨m', by simp only [transferLoop, hslot]; exact hm'⟩

/-- The transfer loop, whenever it returns: the accesses it made to the data
register, the frames it dequeued and the bytes it stored. -/
theorem transferLoop_spec (cfg : Config) (fuel : Nat) :
    ∀ (n recvbuf sendbuf : Nat) (m m' : Machine),
    transferLoop cfg fuel n recvbuf sendbuf m = some m' →
    ∃ tx : Nat → Nat,
      m'.trace = m.trace ++
        exchangeTrace tx (fun i => m.ssp1_rx (m.ssp1_rxPos + i)) n ∧
      m'.ssp1_rxPos = m.ssp1_rxPos + n ∧
      m'.ssp1_rx = m.ssp1_rx ∧
      (sendbuf = 0 → ∀ i, tx i = 0xFF) ∧
      (recvbuf = 0 → m'.mem = m.mem) ∧
      (sendbuf ≠ 0 → sendbuf + n ≤ 2 ^ 32 →
        (recvbuf = 0 ∨ recvbuf ≤ sendbuf ∨ (sendbuf + n ≤ recvbuf ∧ recvbuf < 2 ^ 32)) →
        ∀ i, i < n → tx i = loadByte m (sendbuf + i)) ∧
      (recvbuf ≠ 0 → recvbuf + n ≤ 2 ^ 32 →
        (∀ i, i < n → m'.mem (recvbuf + i) = m.ssp1_rx (m.ssp1_rxPos + i) % 256) ∧
        (∀ a, (a < recvbuf ∨ recvbuf + n ≤ a) → m'.mem a = m.mem a)) := by
  intro n
  induction n with
  | zero =>
    intro recvbuf sendbuf m m' h
    simp only [transferLoop, Option.some.injEq] at h
    subst h
    refine ⟨fun _ => 0xFF, by simp [exchangeTrace_zero], by simp, rfl, fun _ _ => rfl,
      fun _ => rfl, ?_, ?_⟩
    · intro _ _ _ i hi; omega
    · intro _ _; exact ⟨fun i hi => by omega, fun _ _ => rfl⟩
  | succ n ih =>
    intro recvbuf sendbuf m m' h
    simp only [transferLoop] at h
    cases hslot : transferSlot cfg fuel recvbuf sendbuf m with
    | none => rw [hslot] at h; simp at h
    | some res =>
    obtain ⟨m1, r', s'⟩ := res
    rw [hslot] at h
    obtain ⟨hr', hs', htr1, hrxp1, _, hrx1, hmem1, _⟩ :=
      transferSlot_spec cfg fuel recvbuf sendbuf m m1 r' s' hslot
    subst hr' hs'
    have hloop := h
    obtain ⟨tx', htr, hrxp, hrx, hsend0, hrecv0, hsend, hrecv⟩ := ih _ _ m1 m' h
    refine ⟨fun i => if i = 0 then
        (if sendbuf ≠ 0 then loadByte m sendbuf else 0xFF) else tx' (i - 1), ?_, ?_, ?_, ?_, ?_, ?_, ?_⟩
    · rw [htr, htr1, exchangeTrace_succ, hrx1, hrxp1]
      simp [Nat.add_assoc, Nat.add_comm 1]
    · rw [hrxp, hrxp1]; omega
    · rw [hrx, hrx1]
    · intro hs i
      by_cases hi : i = 0
      · simp [hi, hs]
      · simp only [hi, if_false]; exact hsend0 (by simp [hs]) _
    · intro hr
      rw [hrecv0 (by simp [hr]), hmem1]; simp [hr]
    · intro hs hsb hnc i hi
      by_cases hi0 : i = 0
      · simp [hi0, hs]
      · simp only [hi0, if_false]
        have hinc : ptrInc sendbuf = sendbuf + 1 := by
          have : n ≥ 1 := by omega
          exact ptrInc_of_lt _ (by omega)
        have hs' : (if sendbuf ≠ 0 then ptrInc sendbuf else sendbuf) = sendbuf + 1 := by
          simp [hs, hinc]
        rw [hs'] at hsend
        have hnc' : (if recvbuf ≠ 0 then ptrInc recvbuf else recvbuf) = 0 ∨
            (if recvbuf ≠ 0 then ptrInc recvbuf else recvbuf) ≤ sendbuf + 1 ∨
            (sendbuf + 1 + n ≤ (if recvbuf ≠ 0 then ptrInc recvbuf else recvbuf) ∧
              (if recvbuf ≠ 0 then ptrInc recvbuf else recvbuf) < 2 ^ 32) := by
          by_cases hr : recvbuf = 0
          · left; simp [hr]
          · simp only [hr, ne_eq, not_false_eq_true, if_true]
            by_cases hw : recvbuf + 1 < 2 ^ 32
            · rw [ptrInc_of_lt _ hw]
              rcases hnc with h | h | h
              · exact absurd h hr
              · right; left; omega
              · right; right; omega
            · rcases hnc with h | h | h
              · exact absurd h hr
              · left; exact ptrInc_wrap _ (by omega)
              · left; exact ptrInc_wrap _ (by omega)
        have key := hsend (by omega) (by omega) hnc' (i - 1) (by omega)
        rw [key]
        unfold loadByte
        rw [hmem1]
        have e : sendbuf + 1 + (i - 1) = sendbuf + i := by omega
        rw [e]
        by_cases hr : recvbuf = 0
        · simp [hr]
        · have hne : sendbuf + i ≠ recvbuf := by
            rcases hnc with h | h | h
            · exact absurd h hr
            · omega
            · omega
          simp [hr, hne]
    · intro hr hrb
      by_cases hn : n = 0
      · subst hn
        simp only [transferLoop, Option.some.injEq] at hloop
        subst hloop
        constructor
        · intro i hi
          have : i = 0 := by omega
          subst this
          simp only [Nat.add_zero]
          rw [hmem1]; simp [hr]
        · intro a ha
          rw [hmem1]
          have : a ≠ recvbuf := by omega
          simp [hr, this]
      · have hinc : ptrInc recvbuf = recvbuf + 1 := ptrInc_of_lt _ (by omega)
        have hr' : (if recvbuf ≠ 0 then ptrInc recvbuf else recvbuf) = recvbuf + 1 := by
          simp [hr, hinc]
        rw [hr'] at hrecv
        obtain ⟨hA, hB⟩ := hrecv (by omega) (by omega)
        constructor
        · intro i hi
          by_cases hi0 : i = 0
          · subst hi0
            simp only [Nat.add_zero]
            rw [hB recvbuf (by omega), hmem1]; simp [hr]
          · have := hA (i - 1) (by omega)
            have e : recvbuf + 1 + (i - 1) = recvbuf + i := by omega
            rw [e, hrx1, hrxp1] at this
            rw [this]
            have e2 : m.ssp1_rxPos + 1 + (i - 1) = m.ssp1_rxPos + i := by omega
            rw [e2]
        · intro a ha
          rw [hB a (by omega), hmem1]
          have : a ≠ recvbuf := by omega
          simp [hr, this]

/-- Polls that are ready at once answer every busy-wait, for any polling
bound of at least one. -/
theorem waitsAnswered_of_ready (cfg : Config) (fuel : Nat) (hfuel : 0 < fuel)
    (sr : Nat → Nat) :
    ∀ (n p : Nat),
      (∀ k, k < n → txReady cfg (sr (p + 2 * k)) = true ∧
        rxReady cfg (sr (p + 2 * k + 1)) = true) →
      WaitsAnswered cfg fuel sr n p := by
  intro n
  induction n with
  | zero => intro p _; trivial
  | succ n ih =>
    intro p h
    have h0 := h 0 (Nat.succ_pos n)
    refine ⟨p + 1, p + 2, ⟨0, hfuel, rfl, by simpa using h0.1,
        fun j hj => absurd hj (Nat.not_lt_zero j)⟩,
      ⟨0, hfuel, rfl, by simpa using h0.2, fun j hj => absurd hj (Nat.not_lt_zero j)⟩, ?_⟩
    apply ih
    intro k hk
    have := h (k + 1) (by omega)
    have e1 : p + 2 + 2 * k = p + 2 * (k + 1) := by ring
    rw [e1]; exact this

theorem exchangeTrace_congr (n : Nat) : ∀ (tx tx' rx : Nat → Nat),
    (∀ i, i < n → tx i = tx' i) → exchangeTrace tx rx n = exchangeTrace tx' rx n := by
  induction n with
  | zero => intro tx tx' rx _; simp [exchangeTrace_zero]
  | succ n ih =>
    intro tx tx' rx h
    rw [exchangeTrace_succ, exchangeTrace_succ, h 0 (Nat.succ_pos n),
      ih (fun i => tx (i + 1)) (fun i => tx' (i + 1)) _ (fun i hi => h (i + 1) (by omega))]

/-- C1: with both buffers present, `ssp1_slaveTransfer` returns exactly when
the peripheral reports ready at each busy-wait, after however many not-ready
polls below the polling bound; and whenever it returns, the data-register
accesses it added to the trace are exactly `length` slots, each a write
followed by a read, slot `i` writes `send[i]`, and the byte stored in
`receive[i]` is the low byte of the frame dequeued right after that write.
Both buffers lie inside the 32-bit address space, and no later byte of `send`
is overwritten by an earlier store to `receive` (the buffers are disjoint, or
`receive` starts at or below `send`, as in an in-place exchange).  Status
words that are ready at once are one instance of an answered peripheral. -/
theorem ssp1_slaveTransfer_exchanges (cfg : Config) (fuel recvbuf sendbuf length : Nat)
    (m : Machine) (hrecv : recvbuf ≠ 0) (hsend : sendbuf ≠ 0)
    (hrecvBuf : recvbuf + length ≤ 2 ^ 32) (hsendBuf : sendbuf + length ≤ 2 ^ 32)
    (hsep : recvbuf ≤ sendbuf ∨ sendbuf + length ≤ recvbuf) :
    ((∃ m', ssp1_slaveTransfer cfg fuel recvbuf sendbuf length m = some m') ↔
      WaitsAnswered cfg fuel m.ssp1_sr length m.ssp1_srPos) ∧
    (0 < fuel → ReadyAtEachWait cfg m length →
      WaitsAnswered cfg fuel m.ssp1_sr length m.ssp1_srPos) ∧
    ∀ m', ssp1_slaveTransfer cfg fuel recvbuf sendbuf length m = some m' →
      m'.trace = m.trace ++
        exchangeTrace (fun i => loadByte m (sendbuf + i))
          (fun i => m.ssp1_rx (m.ssp1_rxPos + i)) length ∧
      m'.ssp1_rxPos = m.ssp1_rxPos + length ∧
      ∀ i, i < length → m'.mem (recvbuf + i) = m.ssp1_rx (m.ssp1_rxPos + i) % 256 := by
  refine ⟨transferLoop_returns_iff cfg fuel length recvbuf sendbuf m,
    fun hfuel hready => waitsAnswered_of_ready cfg fuel hfuel _ _ _ hready, ?_⟩
  intro m' hloop
  obtain ⟨tx, htr, hrxp, _, _, _, htx, hmem⟩ :=
    transferLoop_spec cfg fuel length recvbuf sendbuf m m' hloop
  refine ⟨?_, hrxp, (hmem hrecv hrecvBuf).1⟩
  rw [htr]
  congr 1
  apply exchangeTrace_congr
  intro i hi
  apply htx hsend hsendBuf _ i hi
  rcases hsep with h | h
  · exact Or.inr (Or.inl h)
  · exact Or.inr (Or.inr ⟨h, by omega⟩)

/-- C1 at a concrete input: two bytes exchanged between a send buffer at
`0x10000000` and a receive buffer at `0x10000100` on a peripheral that
answers every busy-wait only at the third poll. -/
theorem ssp1_slaveTransfer_exchanges_witness :
    ¬ ReadyAtEachWait lpc1347 busyMachine 2 ∧
    ∃ m', ssp1_slaveTransfer lpc1347 3 0x10000100 0x10000000 2 busyMachine = some m' ∧
      m'.ssp1_srPos = 12 ∧
      m'.trace = [Event.dr1Write 0xA0, Event.dr1Read 0x20,
                  Event.dr1Write 0xA1, Event.dr1Read 0x21] ∧
      (∀ m'', ssp1_slaveTransfer lpc1347 3 0x10000100 0x10000000 2 busyMachine = some m'' →
        m''.trace = busyMachine.trace ++
          exchangeTrace (fun i => loadByte busyMachine (0x10000000 + i))
            (fun i => busyMachine.ssp1_rx (busyMachine.ssp1_rxPos + i)) 2 ∧
        m''.ssp1_rxPos = busyMachine.ssp1_rxPos + 2 ∧
        ∀ i, i < 2 → m''.mem (0x10000100 + i)
          = busyMachine.ssp1_rx (busyMachine.ssp1_rxPos + i) % 256) :=
  ⟨fun h => absurd (h 0 (by decide)).1 (by decide), _, rfl, by decide, by decide,
    (ssp1_slaveTransfer_exchanges lpc1347 3 0x10000100 0x10000000 2 busyMachine
      (by decide) (by decide) (by decide) (by decide) (by decide)).2.2⟩

/-- C2: for every length and every run, with the send buffer absent every
slot writes the filler `0xFF`, whatever the receive buffer; and with the
receive buffer absent, which is how `ssp1_slave_send` calls the transfer,
every slot still dequeues one frame from the data register while memory is
left as it was.  Either call returns exactly when each of its busy-waits is
answered within the polling bound. -/
theorem ssp1_slaveTransfer_absent_buffers (cfg : Config) (fuel length : Nat)
    (m : Machine) :
    (∀ recvbuf,
      ((∃ m', ssp1_slaveTransfer cfg fuel recvbuf 0 length m = some m') ↔
        WaitsAnswered cfg fuel m.ssp1_sr length m.ssp1_srPos) ∧
      ∀ m', ssp1_slaveTransfer cfg fuel recvbuf 0 length m = some m' →
        m'.trace = m.trace ++
          exchangeTrace (fun _ => 0xFF) (fun i => m.ssp1_rx (m.ssp1_rxPos + i)) length) ∧
    (∀ buf,
      ssp1_slave_send cfg fuel buf length m
        = ssp1_slaveTransfer cfg fuel 0 buf length m ∧
      ((∃ m', ssp1_slave_send cfg fuel buf length m = some m') ↔
        WaitsAnswered cfg fuel m.ssp1_sr length m.ssp1_srPos) ∧
      ∀ m', ssp1_slave_send cfg fuel buf length m = some m' →
        ∃ tx, m'.trace = m.trace ++
            exchangeTrace tx (fun i => m.ssp1_rx (m.ssp1_rxPos + i)) length ∧
          m'.ssp1_rxPos = m.ssp1_rxPos + length ∧
          m'.mem = m.mem) := by
  constructor
  · intro recvbuf
    refine ⟨transferLoop_returns_iff cfg fuel length recvbuf 0 m, ?_⟩
    intro m' hloop
    obtain ⟨tx, htr, _, _, htx, _, _, _⟩ :=
      transferLoop_spec cfg fuel length recvbuf 0 m m' hloop
    rw [htr]
    congr 1
    exact exchangeTrace_congr _ _ _ _ (fun i _ => htx rfl i)
  · intro buf
    refine ⟨rfl, transferLoop_returns_iff cfg fuel length 0 buf m, ?_⟩
    intro m' hloop
    obtain ⟨tx, htr, hrxp, _, _, hmem, _, _⟩ :=
      transferLoop_spec cfg fuel length 0 buf m m' hloop
    exact ⟨tx, htr, hrxp, hmem rfl⟩

/-- C2 at a concrete input: two slots on a peripheral that answers every
busy-wait only at the third poll, once with the send buffer absent and once
through `ssp1_slave_send`. -/
theorem ssp1_slaveTransfer_absent_buffers_witness :
    (∃ m', ssp1_slaveTransfer lpc1347 3 0x10000100 0 2 busyMachine = some m' ∧
      m'.trace = busyMachine.trace ++
        exchangeTrace (fun _ => 0xFF)
          (fun i => busyMachine.ssp1_rx (busyMachine.ssp1_rxPos + i)) 2) ∧
    (∃ m', ssp1_slave_send lpc1347 3 0x10000000 2 busyMachine = some m' ∧
      m'.trace = [Event.dr1Write 0xA0, Event.dr1Read 0x20,
                  Event.dr1Write 0xA1, Event.dr1Read 0x21] ∧
      ∃ tx, m'.trace = busyMachine.trace ++
          exchangeTrace tx (fun i => busyMachine.ssp1_rx (busyMachine.ssp1_rxPos + i)) 2 ∧
        m'.ssp1_rxPos = busyMachine.ssp1_rxPos + 2 ∧
        m'.mem = busyMachine.mem) :=
  ⟨⟨_, rfl,
      ((ssp1_slaveTransfer_absent_buffers lpc1347 3 2 busyMachine).1 0x10000100).2 _ rfl⟩,
    ⟨_, rfl, by decide,
      ((ssp1_slaveTransfer_absent_buffers lpc1347 3 2 busyMachine).2 0x10000000).2.2 _ rfl⟩⟩

/-! ## Interrupt-driven receive -/

/-- C3 (defect): in the armed branch the handler dequeues from `LPC_SSP0->DR`.
After `ssp1_slaveInterruptRecv(0x10000000, 1, 7)` and one firing with the receive
interrupt pending, `dst[0]` holds SSP0's frame `0x10`, not SSP1's frame
`0x20`, and nothing was dequeued from SSP1. -/
theorem SSP1_IRQHandler_stores_SSP0_frame :
    (SSP1_IRQHandler lpc1347 idleCallbacks 0x4
      (ssp1_slaveInterruptRecv lpc1347 0x10000000 1 7 bootMachine)).mem 0x10000000 = 0x10 ∧
    bootMachine.ssp1_rx bootMachine.ssp1_rxPos = 0x20 ∧
    (SSP1_IRQHandler lpc1347 idleCallbacks 0x4
      (ssp1_slaveInterruptRecv lpc1347 0x10000000 1 7 bootMachine)).ssp1_rxPos = 0 ∧
    (SSP1_IRQHandler lpc1347 idleCallbacks 0x4
      (ssp1_slaveInterruptRecv lpc1347 0x10000000 1 7 bootMachine)).ssp0_rxPos = 1 ∧
    (SSP1_IRQHandler lpc1347 idleCallbacks 0x4
      (ssp1_slaveInterruptRecv lpc1347 0x10000000 1 7 bootMachine)).trace
      = [Event.dr0Read 0x10] := by
  decide

theorem and_not32_and (x k : Nat) (hk : k < 2 ^ 32) : (x &&& not32 k) &&& k = 0 := by
  apply Nat.eq_of_testBit_eq
  intro i
  have h32 : (0xFFFFFFFF : Nat) = 2 ^ 32 - 1 := by norm_num
  simp only [not32, Nat.testBit_and, Nat.testBit_xor, Nat.zero_testBit, h32,
    Nat.testBit_two_pow_sub_one]
  by_cases hi : i < 32
  · cases x.testBit i <;> cases hb : k.testBit i <;> simp [hi]
  · have hki : k.testBit i = false :=
      Nat.testBit_lt_two_pow (lt_of_lt_of_le hk (Nat.pow_le_pow_right (by norm_num) (by omega)))
    simp [hki]

theorem or_and_self (x k : Nat) : (x ||| k) &&& k = k := by
  apply Nat.eq_of_testBit_eq
  intro i
  simp only [Nat.testBit_and, Nat.testBit_or]
  cases x.testBit i <;> cases k.testBit i <;> rfl

theorem calledPointers_append (s t : List Event) :
    calledPointers (s ++ t) = calledPointers s ++ calledPointers t := by
  simp [calledPointers, List.filterMap_append]

/-- The handler in the armed state with bytes remaining. -/
theorem SSP1_IRQHandler_armed (cfg : Config) (code : CallbackTable) (mis : Nat)
    (m : Machine) (hp : RxPending cfg mis) (hb : m.ssp1_recv_buff ≠ 0)
    (hr : 0 < m.ssp1_recv_remainlen) :
    (SSP1_IRQHandler cfg code mis m).ssp1_recv_buff = ptrInc m.ssp1_recv_buff ∧
    (SSP1_IRQHandler cfg code mis m).ssp1_recv_remainlen = m.ssp1_recv_remainlen - 1 ∧
    (SSP1_IRQHandler cfg code mis m).ssp1_recv_callback = m.ssp1_recv_callback ∧
    (SSP1_IRQHandler cfg code mis m).regs = m.regs ∧
    calledPointers (SSP1_IRQHandler cfg code mis m).trace = calledPointers m.trace := by
  unfold RxPending at hp
  unfold SSP1_IRQHandler
  by_cases hc : mis &&& cfg.SSP1_RX_INTERRUPT_CLEAR_MASK = 0 <;>
    simp [hp, hb, hr, hc, readDR0, storeByte, writeICR, calledPointers_append, calledPointers]

/-- The handler in the armed state with nothing remaining. -/
theorem SSP1_IRQHandler_complete (cfg : Config) (code : CallbackTable) (mis : Nat)
    (m : Machine) (hp : RxPending cfg mis) (hb : m.ssp1_recv_buff ≠ 0)
    (hr : m.ssp1_recv_remainlen = 0) :
    (SSP1_IRQHandler cfg code mis m).ssp1_recv_buff = 0 ∧
    (SSP1_IRQHandler cfg code mis m).ssp1_recv_remainlen = 0 ∧
    ∃ m1 : Machine,
      m1 = callPtr code m.ssp1_recv_callback
        (setReg Reg.IMSC (m.regs Reg.IMSC &&& not32 cfg.SSP1_RX_INTERRUPT_MASK) m) ∧
      (SSP1_IRQHandler cfg code mis m).ssp1_recv_callback = m1.ssp1_recv_callback ∧
      (SSP1_IRQHandler cfg code mis m).regs = m1.regs ∧
      calledPointers (SSP1_IRQHandler cfg code mis m).trace = calledPointers m1.trace := by
  unfold RxPending at hp
  unfold SSP1_IRQHandler
  by_cases hc : mis &&& cfg.SSP1_RX_INTERRUPT_CLEAR_MASK = 0 <;>
    simp [hp, hb, hr, hc, setReg, writeICR, calledPointers_append, calledPointers]

/-- The handler in the idle state. -/
theorem SSP1_IRQHandler_idle (cfg : Config) (code : CallbackTable) (mis : Nat)
    (m : Machine) (hb : m.ssp1_recv_buff = 0) :
    (SSP1_IRQHandler cfg code mis m).ssp1_recv_buff = 0 ∧
    (SSP1_IRQHandler cfg code mis m).ssp1_recv_remainlen = m.ssp1_recv_remainlen ∧
    (SSP1_IRQHandler cfg code mis m).ssp1_recv_callback = m.ssp1_recv_callback ∧
    (SSP1_IRQHandler cfg code mis m).regs = m.regs ∧
    (SSP1_IRQHandler cfg code mis m).mem = m.mem ∧
    calledPointers (SSP1_IRQHandler cfg code mis m).trace = calledPointers m.trace := by
  unfold SSP1_IRQHandler
  by_cases hc : mis &&& cfg.SSP1_RX_INTERRUPT_CLEAR_MASK = 0 <;>
  by_cases hp : mis &&& cfg.SSP1_RX_INTERRUPT_MASK = 0 <;>
    simp [hp, hb, hc, readDR1, writeICR, calledPointers_append, calledPointers]

/-- Firings that each find bytes remaining: the cursor advances by the
number of firings and no callback is called. -/
theorem fireAll_armed (cfg : Config) (code : CallbackTable) :
    ∀ (fs : List Nat) (m : Machine), (∀ x ∈ fs, RxPending cfg x) →
      m.ssp1_recv_buff ≠ 0 → m.ssp1_recv_buff + fs.length < 2 ^ 32 →
      fs.length ≤ m.ssp1_recv_remainlen →
      (fireAll cfg code fs m).ssp1_recv_buff = m.ssp1_recv_buff + fs.length ∧
      (fireAll cfg code fs m).ssp1_recv_remainlen = m.ssp1_recv_remainlen - fs.length ∧
      (fireAll cfg code fs m).ssp1_recv_callback = m.ssp1_recv_callback ∧
      (fireAll cfg code fs m).regs = m.regs ∧
      calledPointers (fireAll cfg code fs m).trace = calledPointers m.trace := by
  intro fs
  induction fs with
  | nil => intro m _ _ _ _; simp [fireAll]
  | cons x rest ih =>
    intro m hp hb hlt hle
    simp only [List.length_cons] at hlt hle
    obtain ⟨h1, h2, h3, h4, h5⟩ :=
      SSP1_IRQHandler_armed cfg code x m (hp x (List.mem_cons_self _ _)) hb (by omega)
    rw [ptrInc_of_lt _ (by omega)] at h1
    obtain ⟨i1, i2, i3, i4, i5⟩ := ih (SSP1_IRQHandler cfg code x m)
      (fun y hy => hp y (List.mem_cons_of_mem _ hy)) (by rw [h1]; omega)
      (by rw [h1]; omega) (by rw [h2]; omega)
    simp only [fireAll, List.length_cons]
    refine ⟨by rw [i1, h1]; omega, by rw [i2, h2]; omega, by rw [i3, h3],
      by rw [i4, h4], by rw [i5, h5]⟩

/-- Firings in the idle state leave the driver idle and call nothing. -/
theorem fireAll_idle (cfg : Config) (code : CallbackTable) :
    ∀ (fs : List Nat) (m : Machine), m.ssp1_recv_buff = 0 →
      (fireAll cfg code fs m).ssp1_recv_buff = 0 ∧
      (fireAll cfg code fs m).ssp1_recv_remainlen = m.ssp1_recv_remainlen ∧
      (fireAll cfg code fs m).regs = m.regs ∧
      calledPointers (fireAll cfg code fs m).trace = calledPointers m.trace := by
  intro fs
  induction fs with
  | nil => intro m hb; simp [fireAll, hb]
  | cons x rest ih =>
    intro m hb
    obtain ⟨h1, h2, _, h4, _, h6⟩ := SSP1_IRQHandler_idle cfg code x m hb
    obtain ⟨i1, i2, i3, i4⟩ := ih (SSP1_IRQHandler cfg code x m) h1
    simp only [fireAll]
    exact ⟨i1, by rw [i2, h2], by rw [i3, h4], by rw [i4, h6]⟩

/-- What the armed handler stores: one byte at the cursor, taken from the
frame it dequeues, and nothing else. -/
theorem SSP1_IRQHandler_armed_store (cfg : Config) (code : CallbackTable) (mis : Nat)
    (m : Machine) (hp : RxPending cfg mis) (hb : m.ssp1_recv_buff ≠ 0)
    (hr : 0 < m.ssp1_recv_remainlen) :
    (SSP1_IRQHandler cfg code mis m).mem
      = (fun a => if a = m.ssp1_recv_buff then m.ssp0_rx m.ssp0_rxPos % 256 else m.mem a) ∧
    (SSP1_IRQHandler cfg code mis m).ssp0_rx = m.ssp0_rx ∧
    (SSP1_IRQHandler cfg code mis m).ssp0_rxPos = m.ssp0_rxPos + 1 ∧
    (SSP1_IRQHandler cfg code mis m).ssp1_rxPos = m.ssp1_rxPos := by
  unfold RxPending at hp
  unfold SSP1_IRQHandler
  by_cases hc : mis &&& cfg.SSP1_RX_INTERRUPT_CLEAR_MASK = 0 <;>
    simp [hp, hb, hr, hc, readDR0, storeByte, writeICR]

/-- Firings that each find bytes remaining fill the buffer from the cursor
on, in order, and touch no other address. -/
theorem fireAll_armed_mem (cfg : Config) (code : CallbackTable) :
    ∀ (fs : List Nat) (m : Machine), (∀ x ∈ fs, RxPending cfg x) →
      m.ssp1_recv_buff ≠ 0 → m.ssp1_recv_buff + fs.length < 2 ^ 32 →
      fs.length ≤ m.ssp1_recv_remainlen →
      (∀ i, i < fs.length →
        (fireAll cfg code fs m).mem (m.ssp1_recv_buff + i)
          = m.ssp0_rx (m.ssp0_rxPos + i) % 256) ∧
      (∀ a, (a < m.ssp1_recv_buff ∨ m.ssp1_recv_buff + fs.length ≤ a) →
        (fireAll cfg code fs m).mem a = m.mem a) ∧
      (fireAll cfg code fs m).ssp1_rxPos = m.ssp1_rxPos := by
  intro fs
  induction fs with
  | nil =>
    intro m _ _ _ _
    exact ⟨fun i hi => absurd hi (Nat.not_lt_zero i), fun _ _ => rfl, rfl⟩
  | cons x rest ih =>
    intro m hp hb hlt hle
    simp only [List.length_cons] at hlt hle
    have hpx := hp x (List.mem_cons_self _ _)
    obtain ⟨h1, h2, _⟩ := SSP1_IRQHandler_armed cfg code x m hpx hb (by omega)
    obtain ⟨g1, g2, g3, g4⟩ := SSP1_IRQHandler_armed_store cfg code x m hpx hb (by omega)
    rw [ptrInc_of_lt _ (by omega)] at h1
    obtain ⟨iA, iB, iC⟩ := ih (SSP1_IRQHandler cfg code x m)
      (fun y hy => hp y (List.mem_cons_of_mem _ hy)) (by rw [h1]; omega)
      (by rw [h1]; omega) (by rw [h2]; omega)
    rw [h1] at iA iB
    simp only [fireAll, List.length_cons]
    refine ⟨?_, ?_, by rw [iC, g4]⟩
    · intro i hi
      by_cases hi0 : i = 0
      · subst hi0
        simp only [Nat.add_zero]
        rw [iB _ (Or.inl (Nat.lt_succ_self _)), g1]
        simp
      · have := iA (i - 1) (by omega)
        have e : m.ssp1_recv_buff + 1 + (i - 1) = m.ssp1_recv_buff + i := by omega
        rw [e, g2, g3] at this
        rw [this]
        have e2 : m.ssp0_rxPos + 1 + (i - 1) = m.ssp0_rxPos + i := by omega
        rw [e2]
    · intro a ha
      rw [iB a (by omega), g1]
      have : a ≠ m.ssp1_recv_buff := by omega
      simp [this]

/-- C4: after `ssp1_slaveInterruptRecv(dst, N, cb)` none of the first `N`
firings with the receive interrupt pending calls a callback, the next such
firing calls `cb` once, and afterwards the driver is idle (`ssp1_recv_buff`
is `NULL`, `ssp1_recv_remainlen` is `0`) with the receive interrupt masked
off, so that no later firing calls anything.  The buffer ends below the top
of the address space, the mask is a 32-bit constant, and `cb` itself neither
calls back into the traced accesses nor writes `IMSC`. -/
theorem completion_callback_called_once (cfg : Config) (code : CallbackTable)
    (dst N cb : Nat) (m0 : Machine) (fs : List Nat) (s : Nat)
    (hdst : dst ≠ 0) (hbuf : dst + N < 2 ^ 32)
    (hmask : cfg.SSP1_RX_INTERRUPT_MASK < 2 ^ 32)
    (hlen : fs.length = N) (hfs : ∀ x ∈ fs, RxPending cfg x) (hs : RxPending cfg s)
    (hcb : ∀ m, (code cb m).trace = m.trace ∧ (code cb m).regs Reg.IMSC = m.regs Reg.IMSC) :
    (∀ k, k ≤ N →
      calledPointers
        (fireAll cfg code (fs.take k) (ssp1_slaveInterruptRecv cfg dst N cb m0)).trace
        = calledPointers m0.trace) ∧
    calledPointers
      (SSP1_IRQHandler cfg code s
        (fireAll cfg code fs (ssp1_slaveInterruptRecv cfg dst N cb m0))).trace
      = calledPointers m0.trace ++ [cb] ∧
    (SSP1_IRQHandler cfg code s
      (fireAll cfg code fs (ssp1_slaveInterruptRecv cfg dst N cb m0))).ssp1_recv_buff = 0 ∧
    (SSP1_IRQHandler cfg code s
      (fireAll cfg code fs (ssp1_slaveInterruptRecv cfg dst N cb m0))).ssp1_recv_remainlen = 0 ∧
    (SSP1_IRQHandler cfg code s
      (fireAll cfg code fs (ssp1_slaveInterruptRecv cfg dst N cb m0))).regs Reg.IMSC
      &&& cfg.SSP1_RX_INTERRUPT_MASK = 0 ∧
    (∀ later : List Nat,
      calledPointers
        (fireAll cfg code later
          (SSP1_IRQHandler cfg code s
            (fireAll cfg code fs (ssp1_slaveInterruptRecv cfg dst N cb m0)))).trace
        = calledPointers m0.trace ++ [cb]) := by
  have a1 : (ssp1_slaveInterruptRecv cfg dst N cb m0).ssp1_recv_buff = dst := rfl
  have a2 : (ssp1_slaveInterruptRecv cfg dst N cb m0).ssp1_recv_remainlen = N := rfl
  have a3 : (ssp1_slaveInterruptRecv cfg dst N cb m0).ssp1_recv_callback = cb := rfl
  have a4 : (ssp1_slaveInterruptRecv cfg dst N cb m0).trace = m0.trace := rfl
  have hpre : ∀ k, k ≤ N →
      calledPointers
        (fireAll cfg code (fs.take k) (ssp1_slaveInterruptRecv cfg dst N cb m0)).trace
        = calledPointers m0.trace := by
    intro k hk
    have hl : (fs.take k).length = k := by rw [List.length_take]; omega
    obtain ⟨_, _, _, _, h5⟩ := fireAll_armed cfg code (fs.take k)
      (ssp1_slaveInterruptRecv cfg dst N cb m0)
      (fun x hx => hfs x (List.mem_of_mem_take hx)) (by rw [a1]; exact hdst)
      (by rw [a1, hl]; omega) (by rw [a2, hl]; exact hk)
    rw [h5, a4]
  obtain ⟨h1, h2, h3, _, h5⟩ := fireAll_armed cfg code fs
    (ssp1_slaveInterruptRecv cfg dst N cb m0) hfs (by rw [a1]; exact hdst)
    (by rw [a1, hlen]; exact hbuf) (by rw [a2, hlen])
  rw [a1] at h1; rw [a2, hlen] at h2; rw [a3] at h3; rw [a4] at h5
  obtain ⟨c1, c2, m1, hm1, _, c4, c5⟩ := SSP1_IRQHandler_complete cfg code s
    (fireAll cfg code fs (ssp1_slaveInterruptRecv cfg dst N cb m0)) hs
    (by rw [h1]; omega) (by rw [h2]; omega)
  rw [h3] at hm1
  have htr : calledPointers m1.trace = calledPointers m0.trace ++ [cb] := by
    rw [hm1]
    unfold callPtr
    rw [(hcb _).1]
    simp only [setReg, calledPointers_append, h5]
    simp [calledPointers]
  have hreg : m1.regs Reg.IMSC &&& cfg.SSP1_RX_INTERRUPT_MASK = 0 := by
    rw [hm1]
    unfold callPtr
    rw [(hcb _).2]
    simp only [setReg, if_true]
    exact and_not32_and _ _ hmask
  refine ⟨hpre, by rw [c5, htr], c1, c2, by rw [c4]; exact hreg, ?_⟩
  intro later
  obtain ⟨_, _, _, i4⟩ := fireAll_idle cfg code later _ c1
  rw [i4, c5, htr]

/-- C4 at a concrete input: a two-byte request at `0x10000000` with callback
`7`, two firings and the completion firing. -/
theorem completion_callback_called_once_witness :
    (∀ k, k ≤ 2 →
      calledPointers
        (fireAll lpc1347 idleCallbacks ([0x4, 0x4].take k)
          (ssp1_slaveInterruptRecv lpc1347 0x10000000 2 7 bootMachine)).trace
        = calledPointers bootMachine.trace) ∧
    calledPointers
      (SSP1_IRQHandler lpc1347 idleCallbacks 0x4
        (fireAll lpc1347 idleCallbacks [0x4, 0x4]
          (ssp1_slaveInterruptRecv lpc1347 0x10000000 2 7 bootMachine))).trace
      = calledPointers bootMachine.trace ++ [7] ∧
    (SSP1_IRQHandler lpc1347 idleCallbacks 0x4
      (fireAll lpc1347 idleCallbacks [0x4, 0x4]
        (ssp1_slaveInterruptRecv lpc1347 0x10000000 2 7 bootMachine))).ssp1_recv_buff = 0 ∧
    (SSP1_IRQHandler lpc1347 idleCallbacks 0x4
      (fireAll lpc1347 idleCallbacks [0x4, 0x4]
        (ssp1_slaveInterruptRecv lpc1347 0x10000000 2 7 bootMachine))).ssp1_recv_remainlen = 0 ∧
    (SSP1_IRQHandler lpc1347 idleCallbacks 0x4
      (fireAll lpc1347 idleCallbacks [0x4, 0x4]
        (ssp1_slaveInterruptRecv lpc1347 0x10000000 2 7 bootMachine))).regs Reg.IMSC
      &&& lpc1347.SSP1_RX_INTERRUPT_MASK = 0 ∧
    (∀ later : List Nat,
      calledPointers
        (fireAll lpc1347 idleCallbacks later
          (SSP1_IRQHandler lpc1347 idleCallbacks 0x4
            (fireAll lpc1347 idleCallbacks [0x4, 0x4]
              (ssp1_slaveInterruptRecv lpc1347 0x10000000 2 7 bootMachine)))).trace
        = calledPointers bootMachine.trace ++ [7]) :=
  completion_callback_called_once lpc1347 idleCallbacks 0x10000000 2 7 bootMachine
    [0x4, 0x4] 0x4 (by decide) (by decide) (by decide) (by decide) (by decide)
    (by decide) (fun _ => ⟨rfl, rfl⟩)

/-- C5 as stated fails: a firing in the idle state whose `MIS` value has no
receive bit set dequeues nothing from the SSP1 data register. -/
theorem SSP1_IRQHandler_idle_not_pending_reads_nothing :
    bootMachine.ssp1_recv_buff = 0 ∧
    (SSP1_IRQHandler lpc1347 idleCallbacks 0 bootMachine).ssp1_rxPos
      = bootMachine.ssp1_rxPos ∧
    (SSP1_IRQHandler lpc1347 idleCallbacks 0 bootMachine).trace = bootMachine.trace := by
  decide

/-- C5 (amended): a firing in the idle state with the receive interrupt
pending dequeues exactly one frame from the SSP1 data register and drops it;
with the receive interrupt not pending it dequeues none.  In both cases the
shared receive state and memory are unchanged, nothing is dequeued from SSP0
and no callback is called. -/
theorem SSP1_IRQHandler_idle_drains_one (cfg : Config) (code : CallbackTable)
    (mis : Nat) (m : Machine) (hidle : m.ssp1_recv_buff = 0) :
    (RxPending cfg mis →
      (SSP1_IRQHandler cfg code mis m).ssp1_rxPos = m.ssp1_rxPos + 1 ∧
      (SSP1_IRQHandler cfg code mis m).trace
        = m.trace ++ [Event.dr1Read (m.ssp1_rx m.ssp1_rxPos)] ++
            (if mis &&& cfg.SSP1_RX_INTERRUPT_CLEAR_MASK ≠ 0
              then [Event.icrWrite mis] else [])) ∧
    (¬ RxPending cfg mis →
      (SSP1_IRQHandler cfg code mis m).ssp1_rxPos = m.ssp1_rxPos) ∧
    (SSP1_IRQHandler cfg code mis m).ssp0_rxPos = m.ssp0_rxPos ∧
    (SSP1_IRQHandler cfg code mis m).ssp1_recv_buff = m.ssp1_recv_buff ∧
    (SSP1_IRQHandler cfg code mis m).ssp1_recv_remainlen = m.ssp1_recv_remainlen ∧
    (SSP1_IRQHandler cfg code mis m).ssp1_recv_callback = m.ssp1_recv_callback ∧
    (SSP1_IRQHandler cfg code mis m).mem = m.mem ∧
    calledPointers (SSP1_IRQHandler cfg code mis m).trace = calledPointers m.trace := by
  unfold SSP1_IRQHandler
  by_cases hc : mis &&& cfg.SSP1_RX_INTERRUPT_CLEAR_MASK = 0 <;>
  by_cases hp : mis &&& cfg.SSP1_RX_INTERRUPT_MASK = 0 <;>
    simp [hp, hidle, hc, readDR1, writeICR, calledPointers_append, calledPointers]

/-- C5 (amended) at a concrete input: the sample machine is idle. -/
theorem SSP1_IRQHandler_idle_drains_one_witness :
    (RxPending lpc1347 0x4 →
      (SSP1_IRQHandler lpc1347 idleCallbacks 0x4 bootMachine).ssp1_rxPos
        = bootMachine.ssp1_rxPos + 1 ∧
      (SSP1_IRQHandler lpc1347 idleCallbacks 0x4 bootMachine).trace
        = bootMachine.trace ++ [Event.dr1Read (bootMachine.ssp1_rx bootMachine.ssp1_rxPos)] ++
            (if 0x4 &&& lpc1347.SSP1_RX_INTERRUPT_CLEAR_MASK ≠ 0
              then [Event.icrWrite 0x4] else [])) ∧
    (¬ RxPending lpc1347 0x4 →
      (SSP1_IRQHandler lpc1347 idleCallbacks 0x4 bootMachine).ssp1_rxPos
        = bootMachine.ssp1_rxPos) ∧
    (SSP1_IRQHandler lpc1347 idleCallbacks 0x4 bootMachine).ssp0_rxPos
      = bootMachine.ssp0_rxPos ∧
    (SSP1_IRQHandler lpc1347 idleCallbacks 0x4 bootMachine).ssp1_recv_buff
      = bootMachine.ssp1_recv_buff ∧
    (SSP1_IRQHandler lpc1347 idleCallbacks 0x4 bootMachine).ssp1_recv_remainlen
      = bootMachine.ssp1_recv_remainlen ∧
    (SSP1_IRQHandler lpc1347 idleCallbacks 0x4 bootMachine).ssp1_recv_callback
      = bootMachine.ssp1_recv_callback ∧
    (SSP1_IRQHandler lpc1347 idleCallbacks 0x4 bootMachine).mem = bootMachine.mem ∧
    calledPointers (SSP1_IRQHandler lpc1347 idleCallbacks 0x4 bootMachine).trace
      = calledPointers bootMachine.trace :=
  SSP1_IRQHandler_idle_drains_one lpc1347 idleCallbacks 0x4 bootMachine (by decide)

theorem ssp1_slaveInit_idle (cfg : Config) (m0 m : Machine)
    (h : ssp1_slaveInit cfg m0 = some m) :
    m.ssp1_recv_buff = 0 ∧ m.ssp1_recv_remainlen = 0 := by
  unfold ssp1_slaveInit at h
  by_cases hf : cfg.SSP1_FIFOSIZE < 256
  · simp only [hf, if_true, Option.some.injEq] at h
    subst h
    exact ⟨rfl, rfl⟩
  · simp [hf] at h

theorem stepOp_preserves (cfg : Config) (code : CallbackTable) (s s' : Machine × Request)
    (op : Op) (hinv : ReceiveInv s) (h : stepOp cfg code s op = some s') :
    ReceiveInv s' := by
  cases op with
  | recv buf len callback =>
    simp only [stepOp] at h
    split at h
    · rename_i hg
      simp only [Option.some.injEq] at h
      subst h
      right
      refine ⟨hg.2.1, Nat.le_refl _, ?_, hg.2.2⟩
      show buf = buf + (len - len)
      omega
    · simp at h
  | irq mis =>
    simp only [stepOp, Option.some.injEq] at h
    subst h
    rcases hinv with ⟨hb, hr⟩ | ⟨hb, hle, hcur, hend⟩
    · obtain ⟨h1, h2, _⟩ := SSP1_IRQHandler_idle cfg code mis s.1 hb
      left
      exact ⟨h1, by rw [h2]; exact hr⟩
    · by_cases hp : RxPending cfg mis
      · by_cases hrem : 0 < s.1.ssp1_recv_remainlen
        · obtain ⟨h1, h2, _⟩ := SSP1_IRQHandler_armed cfg code mis s.1 hp hb hrem
          rw [ptrInc_of_lt _ (by omega)] at h1
          right
          refine ⟨?_, ?_, ?_, hend⟩
          · show (SSP1_IRQHandler cfg code mis s.1).ssp1_recv_buff ≠ 0
            rw [h1]; omega
          · show (SSP1_IRQHandler cfg code mis s.1).ssp1_recv_remainlen ≤ s.2.length
            rw [h2]; omega
          · show (SSP1_IRQHandler cfg code mis s.1).ssp1_recv_buff
              = s.2.base + (s.2.length - (SSP1_IRQHandler cfg code mis s.1).ssp1_recv_remainlen)
            rw [h1, h2]; omega
        · obtain ⟨h1, h2, _⟩ :=
            SSP1_IRQHandler_complete cfg code mis s.1 hp hb (by omega)
          left
          exact ⟨h1, h2⟩
      · have hsame : (SSP1_IRQHandler cfg code mis s.1).ssp1_recv_buff = s.1.ssp1_recv_buff ∧
            (SSP1_IRQHandler cfg code mis s.1).ssp1_recv_remainlen
              = s.1.ssp1_recv_remainlen := by
          have hp' : mis &&& cfg.SSP1_RX_INTERRUPT_MASK = 0 := by
            by_contra hne; exact hp hne
          unfold SSP1_IRQHandler
          by_cases hc : mis &&& cfg.SSP1_RX_INTERRUPT_CLEAR_MASK = 0 <;>
            simp [hp', hc, writeICR]
        right
        refine ⟨?_, ?_, ?_, hend⟩
        · show (SSP1_IRQHandler cfg code mis s.1).ssp1_recv_buff ≠ 0
          rw [hsame.1]; exact hb
        · show (SSP1_IRQHandler cfg code mis s.1).ssp1_recv_remainlen ≤ s.2.length
          rw [hsame.2]; exact hle
        · show (SSP1_IRQHandler cfg code mis s.1).ssp1_recv_buff
            = s.2.base + (s.2.length - (SSP1_IRQHandler cfg code mis s.1).ssp1_recv_remainlen)
          rw [hsame.1, hsame.2]; exact hcur

theorem runOps_preserves (cfg : Config) (code : CallbackTable) :
    ∀ (ops : List Op) (s s' : Machine × Request), ReceiveInv s →
      runOps cfg code ops s = some s' → ReceiveInv s' := by
  intro ops
  induction ops with
  | nil =>
    intro s s' hinv h
    simp only [runOps, Option.some.injEq] at h
    subst h; exact hinv
  | cons op rest ih =>
    intro s s' hinv h
    simp only [runOps] at h
    cases hstep : stepOp cfg code s op with
    | none => rw [hstep] at h; simp at h
    | some s1 =>
      rw [hstep] at h
      exact ih s1 s' (stepOp_preserves cfg code s s1 op hinv hstep) h

/-- C6 as stated fails: one byte requested and one firing later the
destination is still set although nothing remains, so "destination is
`NULL` iff remaining is `0`" does not hold in a reachable state. -/
theorem armed_with_nothing_remaining_reachable :
    ∃ s, reachedFromInit lpc1347 idleCallbacks
        [Op.recv 0x10000000 1 7, Op.irq 0x4] bootMachine = some s ∧
      s.1.ssp1_recv_buff = 0x10000001 ∧ s.1.ssp1_recv_remainlen = 0 ∧
      ¬ (s.1.ssp1_recv_buff = 0 ↔ s.1.ssp1_recv_remainlen = 0) :=
  ⟨_, rfl, by decide, by decide, by decide⟩

/-- C6 (amended): in every state reached from `ssp1_slaveInit` by calls of
`ssp1_slaveInterruptRecv` (made only while idle, with a non-null buffer that
ends below the top of the address space) and firings of `SSP1_IRQHandler`, a
`NULL` destination implies that nothing remains.  Whenever the destination is
set, the write cursor is at offset `length - remaining` of the armed buffer
and `remaining` is the exact number of bytes still to be written: that many
further receive firings bring `remaining` to `0` and the cursor to the end of
the buffer, and they store nowhere but from the cursor to that end. -/
theorem receive_state_invariant (cfg : Config) (code : CallbackTable) (ops : List Op)
    (m0 : Machine) (s : Machine × Request)
    (h : reachedFromInit cfg code ops m0 = some s) :
    (s.1.ssp1_recv_buff = 0 → s.1.ssp1_recv_remainlen = 0) ∧
    (s.1.ssp1_recv_buff ≠ 0 →
      s.1.ssp1_recv_remainlen ≤ s.2.length ∧
      s.1.ssp1_recv_buff = s.2.base + (s.2.length - s.1.ssp1_recv_remainlen) ∧
      ∀ fs : List Nat, fs.length = s.1.ssp1_recv_remainlen →
        (∀ x ∈ fs, RxPending cfg x) →
        (fireAll cfg code fs s.1).ssp1_recv_remainlen = 0 ∧
        (fireAll cfg code fs s.1).ssp1_recv_buff = s.2.base + s.2.length ∧
        ∀ a, (a < s.1.ssp1_recv_buff ∨ s.2.base + s.2.length ≤ a) →
          (fireAll cfg code fs s.1).mem a = s.1.mem a) := by
  unfold reachedFromInit at h
  cases hinit : ssp1_slaveInit cfg m0 with
  | none => rw [hinit] at h; simp at h
  | some mi =>
    rw [hinit] at h
    have h0 : ReceiveInv (mi, ⟨0, 0⟩) := Or.inl (ssp1_slaveInit_idle cfg m0 mi hinit)
    rcases runOps_preserves cfg code ops _ s h0 h with ⟨hb, hr⟩ | ⟨hb, hle, hcur, hend⟩
    · exact ⟨fun _ => hr, fun hne => absurd hb hne⟩
    · refine ⟨fun he => absurd he hb, fun _ => ⟨hle, hcur, ?_⟩⟩
      intro fs hlen hfs
      have hsum : s.1.ssp1_recv_buff + fs.length = s.2.base + s.2.length := by
        rw [hlen]; omega
      obtain ⟨f1, f2, _⟩ := fireAll_armed cfg code fs s.1 hfs hb
        (by rw [hsum]; exact hend) (le_of_eq hlen)
      obtain ⟨_, g2, _⟩ := fireAll_armed_mem cfg code fs s.1 hfs hb
        (by rw [hsum]; exact hend) (le_of_eq hlen)
      refine ⟨by rw [f2, hlen]; exact Nat.sub_self _, by rw [f1, hsum], ?_⟩
      intro a ha
      exact g2 a (by rw [hsum]; exact ha)

/-- C6 (amended) at a concrete input: a two-byte request and one firing. -/
theorem receive_state_invariant_witness :
    ∃ s, reachedFromInit lpc1347 idleCallbacks
        [Op.recv 0x10000000 2 7, Op.irq 0x4] bootMachine = some s ∧
      (s.1.ssp1_recv_buff = 0 → s.1.ssp1_recv_remainlen = 0) ∧
      (s.1.ssp1_recv_buff ≠ 0 →
        s.1.ssp1_recv_remainlen ≤ s.2.length ∧
        s.1.ssp1_recv_buff = s.2.base + (s.2.length - s.1.ssp1_recv_remainlen) ∧
        ∀ fs : List Nat, fs.length = s.1.ssp1_recv_remainlen →
          (∀ x ∈ fs, RxPending lpc1347 x) →
          (fireAll lpc1347 idleCallbacks fs s.1).ssp1_recv_remainlen = 0 ∧
          (fireAll lpc1347 idleCallbacks fs s.1).ssp1_recv_buff = s.2.base + s.2.length ∧
          ∀ a, (a < s.1.ssp1_recv_buff ∨ s.2.base + s.2.length ≤ a) →
            (fireAll lpc1347 idleCallbacks fs s.1).mem a = s.1.mem a) :=
  ⟨_, rfl, receive_state_invariant lpc1347 idleCallbacks
    [Op.recv 0x10000000 2 7, Op.irq 0x4] bootMachine _ rfl⟩

/-- C7 as stated fails: the callback at pointer `7` re-arms a four-byte
receive at `0x10000200` with callback `9`, yet when the handler returns the
destination is `NULL` and nothing remains; only the callback slot and the
interrupt mask keep what the re-arming call wrote. -/
theorem SSP1_IRQHandler_discards_rearm :
    (ssp1_slaveInterruptRecv lpc1347 0x10000000 0 7 bootMachine).ssp1_recv_buff = 0x10000000 ∧
    (ssp1_slaveInterruptRecv lpc1347 0x10000000 0 7 bootMachine).ssp1_recv_remainlen = 0 ∧
    (SSP1_IRQHandler lpc1347 rearmCallbacks 0x4
      (ssp1_slaveInterruptRecv lpc1347 0x10000000 0 7 bootMachine)).trace = [Event.call 7] ∧
    (SSP1_IRQHandler lpc1347 rearmCallbacks 0x4
      (ssp1_slaveInterruptRecv lpc1347 0x10000000 0 7 bootMachine)).ssp1_recv_buff = 0 ∧
    (SSP1_IRQHandler lpc1347 rearmCallbacks 0x4
      (ssp1_slaveInterruptRecv lpc1347 0x10000000 0 7 bootMachine)).ssp1_recv_buff ≠ 0x10000200 ∧
    (SSP1_IRQHandler lpc1347 rearmCallbacks 0x4
      (ssp1_slaveInterruptRecv lpc1347 0x10000000 0 7 bootMachine)).ssp1_recv_remainlen = 0 ∧
    (SSP1_IRQHandler lpc1347 rearmCallbacks 0x4
      (ssp1_slaveInterruptRecv lpc1347 0x10000000 0 7 bootMachine)).ssp1_recv_remainlen ≠ 4 := by
  decide

/-- C7 (amended): when the callback called on the completion firing calls
`ssp1_slaveInterruptRecv(dst2, M, cb2)`, the handler returns with the
callback slot holding `cb2` and the receive interrupt enabled, but with the
destination `NULL` and nothing remaining: the reset that follows the call
overwrites the destination and length just armed. -/
theorem SSP1_IRQHandler_rearm_is_reset (cfg : Config) (code : CallbackTable)
    (mis dst2 M cb2 : Nat) (m : Machine)
    (hp : RxPending cfg mis) (hb : m.ssp1_recv_buff ≠ 0)
    (hr : m.ssp1_recv_remainlen = 0)
    (hcall : ∀ x, code m.ssp1_recv_callback x = ssp1_slaveInterruptRecv cfg dst2 M cb2 x) :
    (SSP1_IRQHandler cfg code mis m).ssp1_recv_buff = 0 ∧
    (SSP1_IRQHandler cfg code mis m).ssp1_recv_remainlen = 0 ∧
    (SSP1_IRQHandler cfg code mis m).ssp1_recv_callback = cb2 ∧
    (SSP1_IRQHandler cfg code mis m).regs Reg.IMSC &&& cfg.SSP1_RX_INTERRUPT_MASK
      = cfg.SSP1_RX_INTERRUPT_MASK ∧
    calledPointers (SSP1_IRQHandler cfg code mis m).trace
      = calledPointers m.trace ++ [m.ssp1_recv_callback] := by
  obtain ⟨c1, c2, m1, hm1, c3, c4, c5⟩ := SSP1_IRQHandler_complete cfg code mis m hp hb hr
  unfold callPtr at hm1
  rw [hcall] at hm1
  refine ⟨c1, c2, by rw [c3, hm1]; rfl, ?_, ?_⟩
  · rw [c4, hm1]
    simp only [ssp1_slaveInterruptRecv, setReg, if_true]
    exact or_and_self _ _
  · rw [c5, hm1]
    simp [ssp1_slaveInterruptRecv, setReg, calledPointers_append, calledPointers]

/-- C7 (amended) at a concrete input: the re-arming callback of
`rearmCallbacks` on a request that has just completed. -/
theorem SSP1_IRQHandler_rearm_is_reset_witness :
    (SSP1_IRQHandler lpc1347 rearmCallbacks 0x4
      (ssp1_slaveInterruptRecv lpc1347 0x10000000 0 7 bootMachine)).ssp1_recv_buff = 0 ∧
    (SSP1_IRQHandler lpc1347 rearmCallbacks 0x4
      (ssp1_slaveInterruptRecv lpc1347 0x10000000 0 7 bootMachine)).ssp1_recv_remainlen = 0 ∧
    (SSP1_IRQHandler lpc1347 rearmCallbacks 0x4
      (ssp1_slaveInterruptRecv lpc1347 0x10000000 0 7 bootMachine)).ssp1_recv_callback = 9 ∧
    (SSP1_IRQHandler lpc1347 rearmCallbacks 0x4
      (ssp1_slaveInterruptRecv lpc1347 0x10000000 0 7 bootMachine)).regs Reg.IMSC
        &&& lpc1347.SSP1_RX_INTERRUPT_MASK = lpc1347.SSP1_RX_INTERRUPT_MASK ∧
    calledPointers (SSP1_IRQHandler lpc1347 rearmCallbacks 0x4
      (ssp1_slaveInterruptRecv lpc1347 0x10000000 0 7 bootMachine)).trace
      = calledPointers (ssp1_slaveInterruptRecv lpc1347 0x10000000 0 7 bootMachine).trace
        ++ [(ssp1_slaveInterruptRecv lpc1347 0x10000000 0 7 bootMachine).ssp1_recv_callback] :=
  SSP1_IRQHandler_rearm_is_reset lpc1347 rearmCallbacks 0x4 0x10000200 4 9
    (ssp1_slaveInterruptRecv lpc1347 0x10000000 0 7 bootMachine)
    (by decide) (by decide) (by decide) (fun _ => rfl)

theorem icrWrites_append (s t : List Event) :
    icrWrites (s ++ t) = icrWrites s ++ icrWrites t := by
  simp [icrWrites, List.filterMap_append]

/-- C11 as stated fails: a firing whose `MIS` value has none of the bits of
`SSP1_RX_INTERRUPT_CLEAR_MASK` returns without writing the interrupt-clear
register.  That is so for `MIS = 0` in the idle state, and for the plain
receive interrupt `MIS = 0x4` in the idle state, with bytes remaining, and on
the completion firing. -/
theorem SSP1_IRQHandler_returns_without_clearing :
    icrWrites (SSP1_IRQHandler lpc1347 idleCallbacks 0 bootMachine).trace = [] ∧
    (SSP1_IRQHandler lpc1347 idleCallbacks 0x4 bootMachine).trace
      = [Event.dr1Read 0x20] ∧
    (SSP1_IRQHandler lpc1347 idleCallbacks 0x4
      (ssp1_slaveInterruptRecv lpc1347 0x10000000 1 7 bootMachine)).trace
      = [Event.dr0Read 0x10] ∧
    (SSP1_IRQHandler lpc1347 idleCallbacks 0x4
      (ssp1_slaveInterruptRecv lpc1347 0x10000000 0 7 bootMachine)).trace
      = [Event.call 7] := by
  decide

/-- The handler is its receive part followed by the guarded write of the
interrupt-clear register, and the receive part writes nothing to that
register. -/
theorem SSP1_IRQHandler_icr_split (cfg : Config) (code : CallbackTable)
    (mis : Nat) (m : Machine)
    (hcb : ∀ x, icrWrites (code m.ssp1_recv_callback x).trace = icrWrites x.trace) :
    ∃ m1 : Machine,
      SSP1_IRQHandler cfg code mis m
        = (if mis &&& cfg.SSP1_RX_INTERRUPT_CLEAR_MASK ≠ 0 then writeICR mis m1 else m1) ∧
      icrWrites m1.trace = icrWrites m.trace := by
  unfold SSP1_IRQHandler
  refine ⟨_, rfl, ?_⟩
  by_cases hp : mis &&& cfg.SSP1_RX_INTERRUPT_MASK ≠ 0
  · rw [if_pos hp]
    by_cases hb : m.ssp1_recv_buff ≠ 0
    · rw [if_pos hb]
      by_cases hr : m.ssp1_recv_remainlen > 0
      · rw [if_pos hr]
        show icrWrites (m.trace ++ [Event.dr0Read (m.ssp0_rx m.ssp0_rxPos)]) = _
        simp [icrWrites_append, icrWrites]
      · rw [if_neg hr]
        show icrWrites (code m.ssp1_recv_callback
          { setReg Reg.IMSC (m.regs Reg.IMSC &&& not32 cfg.SSP1_RX_INTERRUPT_MASK) m with
            trace := m.trace ++ [Event.call m.ssp1_recv_callback] }).trace = _
        rw [hcb]
        simp [icrWrites_append, icrWrites]
    · rw [if_neg hb]
      show icrWrites (m.trace ++ [Event.dr1Read (m.ssp1_rx m.ssp1_rxPos)]) = _
      simp [icrWrites_append, icrWrites]
  · rw [if_neg hp]

/-- C11 (amended): the handler writes the interrupt-clear register exactly
when the `MIS` value it read has a bit of `SSP1_RX_INTERRUPT_CLEAR_MASK` set.
In that case it writes the value read, once, as its last traced access;
otherwise it writes nothing to the register.  This holds for every `MIS`
value and every shared receive state, for a completion callback that does not
itself write the register. -/
theorem SSP1_IRQHandler_clears_when_flagged (cfg : Config) (code : CallbackTable)
    (mis : Nat) (m : Machine)
    (hcb : ∀ x, icrWrites (code m.ssp1_recv_callback x).trace = icrWrites x.trace) :
    (mis &&& cfg.SSP1_RX_INTERRUPT_CLEAR_MASK ≠ 0 →
      icrWrites (SSP1_IRQHandler cfg code mis m).trace = icrWrites m.trace ++ [mis] ∧
      (SSP1_IRQHandler cfg code mis m).trace.getLast? = some (Event.icrWrite mis)) ∧
    (mis &&& cfg.SSP1_RX_INTERRUPT_CLEAR_MASK = 0 →
      icrWrites (SSP1_IRQHandler cfg code mis m).trace = icrWrites m.trace) := by
  obtain ⟨m1, heq, htr⟩ := SSP1_IRQHandler_icr_split cfg code mis m hcb
  constructor
  · intro hc
    rw [heq, if_pos hc]
    constructor
    · show icrWrites (m1.trace ++ [Event.icrWrite mis]) = _
      rw [icrWrites_append, htr]
      simp [icrWrites]
    · show (m1.trace ++ [Event.icrWrite mis]).getLast? = _
      simp
  · intro hc
    rw [heq, if_neg (not_not.mpr hc)]
    exact htr

/-- C11 (amended) at a concrete input: a receive-overrun firing `MIS = 0x1`
in the idle state. -/
theorem SSP1_IRQHandler_clears_when_flagged_witness :
    (0x1 &&& lpc1347.SSP1_RX_INTERRUPT_CLEAR_MASK ≠ 0 →
      icrWrites (SSP1_IRQHandler lpc1347 idleCallbacks 0x1 bootMachine).trace
        = icrWrites bootMachine.trace ++ [0x1] ∧
      (SSP1_IRQHandler lpc1347 idleCallbacks 0x1 bootMachine).trace.getLast?
        = some (Event.icrWrite 0x1)) ∧
    (0x1 &&& lpc1347.SSP1_RX_INTERRUPT_CLEAR_MASK = 0 →
      icrWrites (SSP1_IRQHandler lpc1347 idleCallbacks 0x1 bootMachine).trace
        = icrWrites bootMachine.trace) :=
  SSP1_IRQHandler_clears_when_flagged lpc1347 idleCallbacks 0x1 bootMachine
    (fun _ => rfl)

/-! ## Pressure conversions -/

/-- A rational lower bound for a real power with a rational exponent bound:
if `c ^ q < x ^ p` then `c < x ^ y` for every `y ≥ p / q`. -/
theorem lt_rpow_of_pow_lt (x c y : ℝ) (p q : ℕ) (hx : 1 < x) (hc : 0 ≤ c) (hq : q ≠ 0)
    (hy : (p : ℝ) / q ≤ y) (h : c ^ q < x ^ p) : c < x ^ y := by
  have hq' : (0 : ℝ) < (q : ℝ)⁻¹ := by positivity
  have h1 : c = (c ^ q) ^ ((q : ℝ)⁻¹) := (Real.pow_rpow_inv_natCast hc hq).symm
  have h2 : x ^ ((p : ℝ) / q) = (x ^ p) ^ ((q : ℝ)⁻¹) := by
    rw [div_eq_mul_inv, Real.rpow_mul (by linarith), Real.rpow_natCast]
  calc c = (c ^ q) ^ ((q : ℝ)⁻¹) := h1
    _ < (x ^ p) ^ ((q : ℝ)⁻¹) := Real.rpow_lt_rpow (pow_nonneg hc q) h hq'
    _ = x ^ ((p : ℝ) / q) := h2.symm
    _ ≤ x ^ y := (Real.rpow_le_rpow_left_iff hx).mpr hy

/-- The matching upper bound: if `x ^ p < c ^ q` then `x ^ y < c` for every
`y ≤ p / q`. -/
theorem rpow_lt_of_lt_pow (x c y : ℝ) (p q : ℕ) (hx : 1 < x) (hc : 0 ≤ c) (hq : q ≠ 0)
    (hy : y ≤ (p : ℝ) / q) (h : x ^ p < c ^ q) : x ^ y < c := by
  have hq' : (0 : ℝ) < (q : ℝ)⁻¹ := by positivity
  have h1 : c = (c ^ q) ^ ((q : ℝ)⁻¹) := (Real.pow_rpow_inv_natCast hc hq).symm
  have h2 : x ^ ((p : ℝ) / q) = (x ^ p) ^ ((q : ℝ)⁻¹) := by
    rw [div_eq_mul_inv, Real.rpow_mul (by linarith), Real.rpow_natCast]
  calc x ^ y ≤ x ^ ((p : ℝ) / q) := (Real.rpow_le_rpow_left_iff hx).mpr hy
    _ = (x ^ p) ^ ((q : ℝ)⁻¹) := h2
    _ < (c ^ q) ^ ((q : ℝ)⁻¹) :=
        Real.rpow_lt_rpow (pow_nonneg (by linarith) p) h hq'
    _ = c := h1.symm

theorem sample_ratio_rpow_lower :
    (1.02275 : ℝ) < ((1013.25 : ℝ) / 900.0) ^ (0.190223 : ℝ) := by
  apply lt_rpow_of_pow_lt _ _ _ 19 100 (by norm_num) (by norm_num) (by norm_num)
  · norm_num
  · norm_num

theorem sample_ratio_rpow_upper :
    ((1013.25 : ℝ) / 900.0) ^ (0.190223 : ℝ) < (1.02284 : ℝ) := by
  apply rpow_lt_of_lt_pow _ _ _ 4 21 (by norm_num) (by norm_num) (by norm_num)
  · norm_num
  · norm_num

theorem sample_altitude_lower : (1008 : ℝ) < pressureToAltitude 1013.25 900.0 15.0 := by
  unfold pressureToAltitude
  have h := sample_ratio_rpow_lower
  rw [lt_div_iff₀ (by norm_num)]
  nlinarith [h]

theorem sample_altitude_upper : pressureToAltitude 1013.25 900.0 15.0 < (1013 : ℝ) := by
  unfold pressureToAltitude
  have h := sample_ratio_rpow_upper
  rw [div_lt_iff₀ (by norm_num)]
  nlinarith [h]

/-- C8 as stated fails: the formula at sea-level pressure 1013.25 hPa,
atmospheric pressure 900 hPa and 15 °C gives more than 1008 m, which is more
than 75 m above 933 m. -/
theorem pressureToAltitude_sample_not_933 :
    (75 : ℝ) < pressureToAltitude 1013.25 900.0 15.0 - 933 := by
  have h := sample_altitude_lower
  linarith

/-- C8 (amended): `pressureToAltitude(1013.25, 900.0, 15.0)` is about 1011 m:
it lies between 1008 m and 1013 m. -/
theorem pressureToAltitude_sample_near_1011 :
    (1008 : ℝ) < pressureToAltitude 1013.25 900.0 15.0 ∧
    pressureToAltitude 1013.25 900.0 15.0 < (1013 : ℝ) ∧
    |pressureToAltitude 1013.25 900.0 15.0 - 1011| < 3 := by
  have h1 := sample_altitude_lower
  have h2 := sample_altitude_upper
  refine ⟨h1, h2, ?_⟩
  rw [abs_lt]
  constructor <;> linarith

/-- C9: at altitude zero `pressureSeaLevelFromAltitude` returns the pressure
it is given, so feeding it back gives altitude zero; in particular
`pressureToAltitude(1013.25, 1013.25, 15.0)` is `0`.  The pressure is
non-zero, as the quotient of the two pressures requires. -/
theorem sea_level_round_trip_at_zero (P0 T : ℝ) (hP0 : P0 ≠ 0) :
    pressureSeaLevelFromAltitude 0 P0 T = P0 ∧
    pressureToAltitude P0 (pressureSeaLevelFromAltitude 0 P0 T) T = 0 ∧
    pressureToAltitude 1013.25 1013.25 15.0 = 0 := by
  have h1 : pressureSeaLevelFromAltitude 0 P0 T = P0 := by
    unfold pressureSeaLevelFromAltitude
    have e : (1.0 : ℝ) = 1 := by norm_num
    simp [e]
  have h2 : ∀ P : ℝ, P ≠ 0 → ∀ t : ℝ, pressureToAltitude P P t = 0 := by
    intro P hP t
    unfold pressureToAltitude
    have e : (1.0 : ℝ) = 1 := by norm_num
    rw [div_self hP, e, Real.one_rpow, sub_self, zero_mul, zero_div]
  exact ⟨h1, by rw [h1]; exact h2 P0 hP0 T, h2 _ (by norm_num) _⟩

/-- C9 at a concrete input: standard sea-level pressure and 15 °C. -/
theorem sea_level_round_trip_at_zero_witness :
    pressureSeaLevelFromAltitude 0 1013.25 15.0 = 1013.25 ∧
    pressureToAltitude 1013.25 (pressureSeaLevelFromAltitude 0 1013.25 15.0) 15.0 = 0 ∧
    pressureToAltitude 1013.25 1013.25 15.0 = 0 :=
  sea_level_round_trip_at_zero 1013.25 15.0 (by norm_num)

/-- The round trip through the destination functions, written out: the
altitude returned exceeds `h` by a term governed by the exponent
`5.257 * 0.190223 - 1 = 0.000002311`. -/
theorem round_trip_altitude_eq (P0 T0 h : ℝ) (hP0 : 0 < P0)
    (hK : 0.0065 * h < T0 + 273.15) (hh : 0 ≤ 0.0065 * h) :
    pressureToAltitude P0
        (pressureAtDestination P0 (pressureTempAtDestination T0 0 h) h)
        (pressureTempAtDestination T0 0 h)
      = h + (T0 + 273.15) / 0.0065 *
          ((1 - 0.0065 * h / (T0 + 273.15)) ^ (-(0.000002311 : ℝ)) - 1) := by
  have hKpos : 0 < T0 + 273.15 := lt_of_le_of_lt hh hK
  have hb : 0 < 1 - 0.0065 * h / (T0 + 273.15) := by
    rw [sub_pos, div_lt_one hKpos]; exact hK
  unfold pressureToAltitude pressureAtDestination pressureTempAtDestination
  have hden : T0 - 0.0065 * (h - 0) + 0.0065 * h + 273.15 = T0 + 273.15 := by ring
  have e : (1.0 : ℝ) = 1 := by norm_num
  rw [hden, e]
  generalize hbdef : 1 - 0.0065 * h / (T0 + 273.15) = b at hb ⊢
  have hX : 0 < b ^ (5.257 : ℝ) := Real.rpow_pos_of_pos hb _
  have hquot : P0 / (P0 * b ^ (5.257 : ℝ)) = b ^ (-(5.257 : ℝ)) := by
    rw [Real.rpow_neg hb.le]
    field_simp
  have hexp : (-(5.257 : ℝ)) * 0.190223 = -1 + -(0.000002311 : ℝ) := by norm_num
  rw [hquot, ← Real.rpow_mul hb.le, hexp, Real.rpow_add hb, Real.rpow_neg_one]
  generalize b ^ (-(0.000002311 : ℝ)) = D
  have hKb : T0 - 0.0065 * (h - 0) + 273.15 = (T0 + 273.15) * b := by
    rw [← hbdef]; field_simp; ring
  rw [hKb]
  have hh' : h = ((T0 + 273.15) - (T0 + 273.15) * b) / 0.0065 := by
    rw [← hbdef]; field_simp
  have hbne : b ≠ 0 := ne_of_gt hb
  conv_rhs => rw [hh']
  field_simp
  ring

theorem round_trip_sea_level_eq (P0 T0 h : ℝ)
    (hK : 0.0065 * h < T0 + 273.15) (hh : 0 ≤ 0.0065 * h) :
    pressureSeaLevelFromAltitude h
        (pressureAtDestination P0 (pressureTempAtDestination T0 0 h) h)
        (pressureTempAtDestination T0 0 h) = P0 := by
  have hKpos : 0 < T0 + 273.15 := lt_of_le_of_lt hh hK
  have hb : 0 < 1 - 0.0065 * h / (T0 + 273.15) := by
    rw [sub_pos, div_lt_one hKpos]; exact hK
  unfold pressureSeaLevelFromAltitude pressureAtDestination pressureTempAtDestination
  have hden : T0 - 0.0065 * (h - 0) + 0.0065 * h + 273.15 = T0 + 273.15 := by ring
  have e : (1.0 : ℝ) = 1 := by norm_num
  rw [hden, e, Real.rpow_neg hb.le, mul_assoc,
    mul_inv_cancel₀ (ne_of_gt (Real.rpow_pos_of_pos hb _)), mul_one]

theorem round_trip_altitude_gt (P0 T0 h : ℝ) (hP0 : 0 < P0)
    (hK : 0.0065 * h < T0 + 273.15) (hh : 0 < h) :
    h < pressureToAltitude P0
        (pressureAtDestination P0 (pressureTempAtDestination T0 0 h) h)
        (pressureTempAtDestination T0 0 h) := by
  have ha : 0 < 0.0065 * h := by positivity
  have hKpos : 0 < T0 + 273.15 := lt_trans ha hK
  rw [round_trip_altitude_eq P0 T0 h hP0 hK ha.le]
  have hb : 0 < 1 - 0.0065 * h / (T0 + 273.15) := by
    rw [sub_pos, div_lt_one hKpos]; exact hK
  have hb1 : 1 - 0.0065 * h / (T0 + 273.15) < 1 := by
    have : 0 < 0.0065 * h / (T0 + 273.15) := div_pos ha hKpos
    linarith
  have hD := Real.one_lt_rpow_of_pos_of_lt_one_of_neg hb hb1
    (show -(0.000002311 : ℝ) < 0 by norm_num)
  have hc : 0 < (T0 + 273.15) / 0.0065 := by positivity
  have := mul_pos hc (sub_pos.mpr hD)
  linarith

theorem round_trip_altitude_le (P0 T0 h : ℝ) (hP0 : 0 < P0)
    (hK : 0.0065 * h < T0 + 273.15) (hh : 0 ≤ 0.0065 * h) :
    pressureToAltitude P0
        (pressureAtDestination P0 (pressureTempAtDestination T0 0 h) h)
        (pressureTempAtDestination T0 0 h)
      ≤ h + 0.000002311 * h * ((T0 + 273.15) / (T0 + 273.15 - 0.0065 * h)) := by
  have hKpos : 0 < T0 + 273.15 := lt_of_le_of_lt hh hK
  rw [round_trip_altitude_eq P0 T0 h hP0 hK hh]
  have hb : 0 < 1 - 0.0065 * h / (T0 + 273.15) := by
    rw [sub_pos, div_lt_one hKpos]; exact hK
  have hb1 : 1 - 0.0065 * h / (T0 + 273.15) ≤ 1 := by
    have : 0 ≤ 0.0065 * h / (T0 + 273.15) := div_nonneg hh hKpos.le
    linarith
  have hKa : 0 < T0 + 273.15 - 0.0065 * h := by linarith
  have hbeq : 1 - 0.0065 * h / (T0 + 273.15)
      = (T0 + 273.15 - 0.0065 * h) / (T0 + 273.15) := by
    field_simp
  have hinv : (1 - 0.0065 * h / (T0 + 273.15))⁻¹
      = 1 + 0.0065 * h / (T0 + 273.15 - 0.0065 * h) := by
    rw [hbeq, inv_div]; field_simp
  have hs : (-1 : ℝ) ≤ 0.0065 * h / (T0 + 273.15 - 0.0065 * h) := by
    have : 0 ≤ 0.0065 * h / (T0 + 273.15 - 0.0065 * h) := div_nonneg hh hKa.le
    linarith
  have hbern := rpow_one_add_le_one_add_mul_self hs
    (show (0 : ℝ) ≤ 0.000002311 by norm_num) (show (0.000002311 : ℝ) ≤ 1 by norm_num)
  have hD : (1 - 0.0065 * h / (T0 + 273.15)) ^ (-(0.000002311 : ℝ))
      = (1 + 0.0065 * h / (T0 + 273.15 - 0.0065 * h)) ^ (0.000002311 : ℝ) := by
    rw [Real.rpow_neg hb.le, ← Real.inv_rpow hb.le, hinv]
  rw [hD]
  have hc : 0 ≤ (T0 + 273.15) / 0.0065 := by positivity
  have step := mul_le_mul_of_nonneg_left (sub_le_sub_right hbern 1) hc
  have hrhs : (T0 + 273.15) / 0.0065 *
      (1 + 0.000002311 * (0.0065 * h / (T0 + 273.15 - 0.0065 * h)) - 1)
      = 0.000002311 * h * ((T0 + 273.15) / (T0 + 273.15 - 0.0065 * h)) := by
    field_simp; ring
  rw [hrhs] at step
  linarith

/-- C10 as stated fails: from sea-level pressure 1013.25 hPa at 15 °C, going
to 1000 m and back does not return exactly 1000 m, because the two exponents
multiply to `5.257 * 0.190223 = 1.000002311` and not to `1`. -/
theorem round_trip_altitude_not_exact :
    (0 : ℝ) < 1013.25 ∧ (0.0065 : ℝ) * 1000 < 15 + 273.15 ∧ (0 : ℝ) ≤ 0.0065 * 1000 ∧
    pressureToAltitude 1013.25
        (pressureAtDestination 1013.25 (pressureTempAtDestination 15 0 1000) 1000)
        (pressureTempAtDestination 15 0 1000) ≠ 1000 := by
  refine ⟨by norm_num, by norm_num, by norm_num, ?_⟩
  exact ne_of_gt (round_trip_altitude_gt 1013.25 15 1000 (by norm_num) (by norm_num)
    (by norm_num))

/-- C10 (amended): for `P0 > 0` and `T0 + 273.15 > 0.0065 * h ≥ 0`, with
`Th = pressureTempAtDestination(T0, 0, h)` and
`Ph = pressureAtDestination(P0, Th, h)`, the sea-level pressure is recovered
exactly, `pressureSeaLevelFromAltitude(h, Ph, Th) = P0`, while the altitude
is recovered only approximately: `pressureToAltitude(P0, Ph, Th)` is at least
`h`, exceeds it by at most
`0.000002311 * h * (T0 + 273.15) / (T0 + 273.15 - 0.0065 * h)`, and equals `h`
exactly when `h = 0`. -/
theorem destination_round_trip (P0 T0 h : ℝ) (hP0 : 0 < P0)
    (hK : 0.0065 * h < T0 + 273.15) (hh : 0 ≤ 0.0065 * h) :
    pressureSeaLevelFromAltitude h
        (pressureAtDestination P0 (pressureTempAtDestination T0 0 h) h)
        (pressureTempAtDestination T0 0 h) = P0 ∧
    h ≤ pressureToAltitude P0
        (pressureAtDestination P0 (pressureTempAtDestination T0 0 h) h)
        (pressureTempAtDestination T0 0 h) ∧
    pressureToAltitude P0
        (pressureAtDestination P0 (pressureTempAtDestination T0 0 h) h)
        (pressureTempAtDestination T0 0 h)
      ≤ h + 0.000002311 * h * ((T0 + 273.15) / (T0 + 273.15 - 0.0065 * h)) ∧
    (pressureToAltitude P0
        (pressureAtDestination P0 (pressureTempAtDestination T0 0 h) h)
        (pressureTempAtDestination T0 0 h) = h ↔ h = 0) := by
  have hh0 : 0 ≤ h := by
    by_contra hneg
    push_neg at hneg
    have : 0.0065 * h < 0 := by nlinarith
    linarith
  have hzero : h = 0 → pressureToAltitude P0
        (pressureAtDestination P0 (pressureTempAtDestination T0 0 h) h)
        (pressureTempAtDestination T0 0 h) = h := by
    intro h0
    rw [round_trip_altitude_eq P0 T0 h hP0 hK hh, h0]
    simp
  refine ⟨round_trip_sea_level_eq P0 T0 h hK hh, ?_,
    round_trip_altitude_le P0 T0 h hP0 hK hh, ?_, hzero⟩
  · rcases eq_or_lt_of_le hh0 with h0 | hpos
    · exact le_of_eq (hzero h0.symm).symm
    · exact le_of_lt (round_trip_altitude_gt P0 T0 h hP0 hK hpos)
  · intro heq
    by_contra hne
    have hpos : 0 < h := lt_of_le_of_ne hh0 (Ne.symm hne)
    exact absurd heq (ne_of_gt (round_trip_altitude_gt P0 T0 h hP0 hK hpos))

/-- C10 (amended) at a concrete input: 1013.25 hPa, 15 °C, 1000 m. -/
theorem destination_round_trip_witness :
    pressureSeaLevelFromAltitude 1000
        (pressureAtDestination 1013.25 (pressureTempAtDestination 15 0 1000) 1000)
        (pressureTempAtDestination 15 0 1000) = 1013.25 ∧
    (1000 : ℝ) ≤ pressureToAltitude 1013.25
        (pressureAtDestination 1013.25 (pressureTempAtDestination 15 0 1000) 1000)
        (pressureTempAtDestination 15 0 1000) ∧
    pressureToAltitude 1013.25
        (pressureAtDestination 1013.25 (pressureTempAtDestination 15 0 1000) 1000)
        (pressureTempAtDestination 15 0 1000)
      ≤ 1000 + 0.000002311 * 1000 * ((15 + 273.15) / (15 + 273.15 - 0.0065 * 1000)) ∧
    (pressureToAltitude 1013.25
        (pressureAtDestination 1013.25 (pressureTempAtDestination 15 0 1000) 1000)
        (pressureTempAtDestination 15 0 1000) = 1000 ↔ (1000 : ℝ) = 0) :=
  destination_round_trip 1013.25 15 1000 (by norm_num) (by norm_num) (by norm_num)

end ArmAlarm
